import Mathlib

/-!
# Pricing engine (pricing/DiscountService.js)

A shallow embedding of the discount service of the membership calculator.

* JavaScript numbers are embedded as exact rationals (`ℚ`); the special values `NaN`
  and `±Infinity` are not modelled. Sums and products are taken exactly, except under
  a `Math.round`, where the rounding of the machine can decide the result: there the
  operations of the engine are the parameter `fp`.
* `PricingConfig` (imported by the service from `./PricingConfig`) is taken as a
  parameter of every function that reads it.
* Template literals are embedded as the list of their pieces (literal text and
  interpolated values), so that no number formatting has to be modelled.
* The service names `AdmissionCostCalculator` without importing it. What the name is
  bound to when it is evaluated is the parameter `scope` of
  `calculateWelcomeProgramPricing`; in the repository nothing binds it (`moduleScope`),
  and its evaluation throws a `ReferenceError`.
* An object used as a table (`discountMap`, `purchaseLinks`, `infoLinks`, `labels`) is
  the list of its own properties; a read goes on to the properties inherited from
  `Object.prototype`, and a key found nowhere reads as `undefined`.
-/

namespace DiscountService

/-! ## Configuration read by the service -/

/-- The record `PricingConfig.Discounts.membershipDiscount`. -/
structure MembershipDiscount where
  currentRate : ℚ
  minimumMembers : ℚ
  eligibleLocations : List String
  deriving DecidableEq

/-- The record `PricingConfig.Discounts.welcomeProgram`. The two link tables are
objects keyed by location code, embedded as key-value lists. -/
structure WelcomeProgram where
  membershipPrice : ℚ
  singleVisitPrice : ℚ
  maxPeople : ℚ
  maxAdults : ℚ
  maxChildren : ℚ
  maxSingleVisitGroup : ℚ
  purchaseLinks : List (String × String)
  infoLinks : List (String × String)
  deriving DecidableEq

/-- The record `PricingConfig.Discounts`. -/
structure Discounts where
  membershipDiscount : MembershipDiscount
  welcomeProgram : WelcomeProgram
  deriving DecidableEq

/-- The record `PricingConfig.GuestDiscounts`; `discountMap` is an object of objects,
keyed by the member location and then by the visited location. -/
structure GuestDiscounts where
  discountMap : List (String × List (String × ℚ))
  deriving DecidableEq

/-- The record `PricingConfig.ParkingRates`. The service reads `welcome`; `standard` is
the rate of the other context of the parking helper. -/
structure ParkingRates where
  welcome : ℚ
  standard : ℚ
  deriving DecidableEq

/-- Admission prices of a location with one price tier
(`AdmissionPrices.Science`, `AdmissionPrices.DPKH`). -/
structure SitePrices where
  adult : ℚ
  child : ℚ
  childAgeThreshold : ℚ
  deriving DecidableEq

/-- One price tier of Rockingham (`AdmissionPrices.DPKR.standard`, `.resident`). -/
structure TierPrices where
  adult : ℚ
  child : ℚ
  deriving DecidableEq

/-- The record `AdmissionPrices.DPKR`. -/
structure DPKRPrices where
  standard : TierPrices
  resident : TierPrices
  childAgeThreshold : ℚ
  deriving DecidableEq

/-- The record `PricingConfig.AdmissionPrices`. -/
structure AdmissionPrices where
  Science : SitePrices
  DPKH : SitePrices
  DPKR : DPKRPrices
  deriving DecidableEq

/-- The record `PricingConfig.Constraints`. -/
structure Constraints where
  MAX_VISITS_PER_LOCATION : ℚ
  MAX_ADULTS : ℚ
  MAX_CHILDREN : ℚ
  deriving DecidableEq

/-- The part of `PricingConfig` that the embedded functions read. -/
structure PricingConfig where
  Discounts : Discounts
  GuestDiscounts : GuestDiscounts
  AdmissionPrices : AdmissionPrices
  ParkingRates : ParkingRates
  Constraints : Constraints
  deriving DecidableEq

/-! ## Numbers -/

/-- `Math.round`: the nearest integer, halves rounded towards `+∞`. -/
def mathRound (x : ℚ) : ℚ := ((⌊x + 1 / 2⌋ : ℤ) : ℚ)

/-- The binary64 subtraction, product and quotient of the engine, where their result is
rounded to an integer. A result is the double next to the exact value, and `Math.round`
can turn the difference into a whole unit, so these operations are a parameter of the
functions that round: what is proved of such a function holds for the operations of the
engine. `Math.round` itself is exact on a double. -/
structure Arithmetic where
  sub : ℚ → ℚ → ℚ
  mul : ℚ → ℚ → ℚ
  div : ℚ → ℚ → ℚ

/-! ## Membership discount -/

/-- `isEligibleForDiscount(memberCount, location, membershipType = null)`. -/
def isEligibleForDiscount (cfg : PricingConfig) (memberCount : ℚ) (location : String)
    (membershipType : Option String) : Bool :=
  let minimumMembers := cfg.Discounts.membershipDiscount.minimumMembers
  let eligibleLocations := cfg.Discounts.membershipDiscount.eligibleLocations
  if location = "DPKR" then
    false
  else if membershipType = some "ScienceKids" ∧ memberCount ≥ minimumMembers then
    eligibleLocations.contains location
  else
    decide (memberCount ≥ minimumMembers) && eligibleLocations.contains location

/-- `applyDiscount(originalPrice, memberCount, location, membershipType = null)`, the
subtraction and the product under `Math.round` being those of the engine. -/
def applyDiscountWith (fp : Arithmetic) (cfg : PricingConfig) (originalPrice memberCount : ℚ)
    (location : String) (membershipType : Option String) : ℚ :=
  if isEligibleForDiscount cfg memberCount location membershipType then
    let currentRate := cfg.Discounts.membershipDiscount.currentRate
    mathRound (fp.mul originalPrice (fp.sub 1 currentRate))
  else
    originalPrice

/-- `applyDiscount(originalPrice, memberCount, location, membershipType = null)`, the
subtraction and the product taken exactly; the bounds on the discounted price are
proved of this value. -/
def applyDiscount (cfg : PricingConfig) (originalPrice memberCount : ℚ) (location : String)
    (membershipType : Option String) : ℚ :=
  if isEligibleForDiscount cfg memberCount location membershipType then
    let currentRate := cfg.Discounts.membershipDiscount.currentRate
    mathRound (originalPrice * (1 - currentRate))
  else
    originalPrice

/-! ## Guest admission savings -/

/-- The three locations that `calculateGuestAdmissionSavings` processes, in the
order of its three blocks. -/
inductive Site where
  | Science
  | DPKH
  | DPKR
  deriving DecidableEq, Repr

/-- The location code that a block compares `primaryLocation` with. -/
def Site.code : Site → String
  | .Science => "Science"
  | .DPKH => "DPKH"
  | .DPKR => "DPKR"

/-- A piece of a template literal: literal text or an interpolated number. -/
inductive Piece where
  | text (s : String)
  | num (x : ℚ)
  deriving DecidableEq

/-- An entry of `fullDetails`. -/
structure SavingDetail where
  label : List Piece
  saving : ℚ
  deriving DecidableEq

/-- An entry of `savingsBreakdown`. -/
structure BreakdownLine where
  label : List Piece
  cost : ℚ
  details : List Piece
  fullDetails : List SavingDetail
  deriving DecidableEq

/-- The `options` argument of `calculateGuestAdmissionSavings`. -/
structure GuestOptions where
  adultCount : ℚ
  childAges : List ℚ
  scienceVisits : ℚ
  dpkhVisits : ℚ
  dpkrVisits : ℚ
  isRichmondResident : Bool
  primaryLocation : String
  deriving DecidableEq

/-- The record returned by `calculateGuestAdmissionSavings`. -/
structure GuestSavings where
  total : ℚ
  breakdown : List BreakdownLine
  primaryLocation : String
  deriving DecidableEq

/-- The visit count of the options that a block reads. -/
def visits (o : GuestOptions) : Site → ℚ
  | .Science => o.scienceVisits
  | .DPKH => o.dpkhVisits
  | .DPKR => o.dpkrVisits

/-- `admissionPrices.<site>.childAgeThreshold`. -/
def childAgeThreshold (cfg : PricingConfig) : Site → ℚ
  | .Science => cfg.AdmissionPrices.Science.childAgeThreshold
  | .DPKH => cfg.AdmissionPrices.DPKH.childAgeThreshold
  | .DPKR => cfg.AdmissionPrices.DPKR.childAgeThreshold

/-- `eligibleChildrenFor<site>`:
`childAges.filter((age) => age >= admissionPrices.<site>.childAgeThreshold).length`. -/
def eligibleChildren (cfg : PricingConfig) (o : GuestOptions) (site : Site) : ℚ :=
  ((o.childAges.filter (fun age => decide (age ≥ childAgeThreshold cfg site))).length : ℚ)

/-- `capped<site>Visits = Math.min(<site>Visits, MAX_VISITS)`. -/
def cappedVisits (cfg : PricingConfig) (o : GuestOptions) (site : Site) : ℚ :=
  min (visits o site) cfg.Constraints.MAX_VISITS_PER_LOCATION

/-- `<site>DiscountRate = primaryLocation === "<site>" ? 0.5 : 0.25`. -/
def discountRate (o : GuestOptions) (site : Site) : ℚ :=
  if o.primaryLocation = site.code then 1 / 2 else 1 / 4

/-- `priceCategory = isRichmondResident ? "resident" : "standard"`, then
`admissionPrices.DPKR[priceCategory]`. -/
def dpkrTier (cfg : PricingConfig) (o : GuestOptions) : TierPrices :=
  if o.isRichmondResident then cfg.AdmissionPrices.DPKR.resident
  else cfg.AdmissionPrices.DPKR.standard

/-- `regularAdult<site>Price`. -/
def regularAdultPrice (cfg : PricingConfig) (o : GuestOptions) : Site → ℚ
  | .Science => cfg.AdmissionPrices.Science.adult
  | .DPKH => cfg.AdmissionPrices.DPKH.adult
  | .DPKR => (dpkrTier cfg o).adult

/-- `regularChild<site>Price`. -/
def regularChildPrice (cfg : PricingConfig) (o : GuestOptions) : Site → ℚ
  | .Science => cfg.AdmissionPrices.Science.child
  | .DPKH => cfg.AdmissionPrices.DPKH.child
  | .DPKR => (dpkrTier cfg o).child

/-- `discountedAdult<site>Price = regularAdult<site>Price * (1 - <site>DiscountRate)`. -/
def discountedAdultPrice (cfg : PricingConfig) (o : GuestOptions) (site : Site) : ℚ :=
  regularAdultPrice cfg o site * (1 - discountRate o site)

/-- `discountedChild<site>Price = regularChild<site>Price * (1 - <site>DiscountRate)`. -/
def discountedChildPrice (cfg : PricingConfig) (o : GuestOptions) (site : Site) : ℚ :=
  regularChildPrice cfg o site * (1 - discountRate o site)

/-- `<site>AdultSaving`. -/
def adultSaving (cfg : PricingConfig) (o : GuestOptions) (site : Site) : ℚ :=
  cappedVisits cfg o site * o.adultCount *
    (regularAdultPrice cfg o site - discountedAdultPrice cfg o site)

/-- `<site>ChildSaving`. -/
def childSaving (cfg : PricingConfig) (o : GuestOptions) (site : Site) : ℚ :=
  cappedVisits cfg o site * eligibleChildren cfg o site *
    (regularChildPrice cfg o site - discountedChildPrice cfg o site)

/-- `<site>TotalSaving = <site>AdultSaving + <site>ChildSaving`. -/
def totalSaving (cfg : PricingConfig) (o : GuestOptions) (site : Site) : ℚ :=
  adultSaving cfg o site + childSaving cfg o site

/-- The literal text that opens the label of a block. -/
def labelHead : Site → String
  | .Science => "Science guest discounts ("
  | .DPKH => "Kids-Huntersville guest discounts ("
  | .DPKR => "Kids-Rockingham guest discounts ("

/-- The object pushed onto `savingsBreakdown` by a block. -/
def breakdownLine (cfg : PricingConfig) (o : GuestOptions) (site : Site) : BreakdownLine where
  label := [.text (labelHead site), .num (mathRound (discountRate o site * 100)), .text "% off)"]
  cost := -totalSaving cfg o site
  details :=
    [.num (cappedVisits cfg o site), .text " visits × ",
      .num (o.adultCount + eligibleChildren cfg o site), .text " people"]
  fullDetails :=
    [{ label :=
        [.text "Adult admission (", .num o.adultCount, .text " × ",
          .num (cappedVisits cfg o site), .text " visits)"]
       saving := adultSaving cfg o site },
     { label :=
        [.text "Child admission (", .num (eligibleChildren cfg o site), .text " × ",
          .num (cappedVisits cfg o site), .text " visits)"]
       saving := childSaving cfg o site }]

/-- One `// Process <site> visits` block, acting on the pair
`(savingsBreakdown, totalSavings)`. -/
def processVisits (cfg : PricingConfig) (o : GuestOptions) (site : Site)
    (acc : List BreakdownLine × ℚ) : List BreakdownLine × ℚ :=
  if cappedVisits cfg o site > 0 then
    if totalSaving cfg o site > 0 then
      (acc.1 ++ [breakdownLine cfg o site], acc.2 + totalSaving cfg o site)
    else acc
  else acc

/-- `calculateGuestAdmissionSavings(options)`. -/
def calculateGuestAdmissionSavings (cfg : PricingConfig) (o : GuestOptions) : GuestSavings :=
  let acc : List BreakdownLine × ℚ := ([], 0)
  let acc := processVisits cfg o .Science acc
  let acc := processVisits cfg o .DPKH acc
  let acc := processVisits cfg o .DPKR acc
  { total := acc.2, breakdown := acc.1, primaryLocation := o.primaryLocation }

/-! ## Reading the result -/

/-- The location a breakdown line belongs to, read off the opening text of its label. -/
def lineSite (l : BreakdownLine) : Option Site :=
  match l.label.head? with
  | some (.text s) =>
    if s = labelHead .Science then some .Science
    else if s = labelHead .DPKH then some .DPKH
    else if s = labelHead .DPKR then some .DPKR
    else none
  | _ => none

/-- The options with the visit count of one location replaced. -/
def setVisits (o : GuestOptions) (site : Site) (v : ℚ) : GuestOptions :=
  match site with
  | .Science => { o with scienceVisits := v }
  | .DPKH => { o with dpkhVisits := v }
  | .DPKR => { o with dpkrVisits := v }

/-- All admission prices of the configuration are non-negative. -/
def NonNegativePrices (cfg : PricingConfig) : Prop :=
  0 ≤ cfg.AdmissionPrices.Science.adult ∧ 0 ≤ cfg.AdmissionPrices.Science.child ∧
    0 ≤ cfg.AdmissionPrices.DPKH.adult ∧ 0 ≤ cfg.AdmissionPrices.DPKH.child ∧
    0 ≤ cfg.AdmissionPrices.DPKR.standard.adult ∧ 0 ≤ cfg.AdmissionPrices.DPKR.standard.child ∧
    0 ≤ cfg.AdmissionPrices.DPKR.resident.adult ∧ 0 ≤ cfg.AdmissionPrices.DPKR.resident.child

/-- The adult count and the three visit counts of the options are non-negative. -/
def NonNegativeCounts (o : GuestOptions) : Prop :=
  0 ≤ o.adultCount ∧ 0 ≤ o.scienceVisits ∧ 0 ≤ o.dpkhVisits ∧ 0 ≤ o.dpkrVisits

/-- The number is an integer. -/
def IsInteger (x : ℚ) : Prop := ∃ n : ℤ, x = (n : ℚ)

/-- All admission prices of the configuration are integers. -/
def IntegerPrices (cfg : PricingConfig) : Prop :=
  IsInteger cfg.AdmissionPrices.Science.adult ∧ IsInteger cfg.AdmissionPrices.Science.child ∧
    IsInteger cfg.AdmissionPrices.DPKH.adult ∧ IsInteger cfg.AdmissionPrices.DPKH.child ∧
    IsInteger cfg.AdmissionPrices.DPKR.standard.adult ∧
    IsInteger cfg.AdmissionPrices.DPKR.standard.child ∧
    IsInteger cfg.AdmissionPrices.DPKR.resident.adult ∧
    IsInteger cfg.AdmissionPrices.DPKR.resident.child

/-- The adult count, the child ages and the three visit counts of the options are
integers. -/
def IntegerCounts (o : GuestOptions) : Prop :=
  IsInteger o.adultCount ∧ (∀ age ∈ o.childAges, IsInteger age) ∧ IsInteger o.scienceVisits ∧
    IsInteger o.dpkhVisits ∧ IsInteger o.dpkrVisits

/-! ## Objects used as tables -/

/-- The property names that an object literal inherits from `Object.prototype`. -/
def objectPrototypeNames : List String :=
  ["constructor", "__defineGetter__", "__defineSetter__", "hasOwnProperty",
    "__lookupGetter__", "__lookupSetter__", "isPrototypeOf", "propertyIsEnumerable",
    "toString", "valueOf", "__proto__", "toLocaleString"]

/-- What the read `object[key]` of an object literal finds: an own property, whose value
it returns; a property inherited from `Object.prototype`, whose value is a built-in
function or object of the engine; or nothing, and the read gives `undefined`. -/
inductive Property (α : Type) where
  | own (value : α)
  | inherited (name : String)
  | missing
  deriving DecidableEq

/-- The read `object[key]`; the object literal is the list of its own properties. -/
def getProperty {α : Type} (object : List (String × α)) (key : String) : Property α :=
  match object.lookup key with
  | some value => .own value
  | none => if objectPrototypeNames.contains key then .inherited key else .missing

/-- A value read from a table of strings: a string, or the built-in function or object
that `Object.prototype` holds under the given name. -/
inductive TableValue where
  | string (s : String)
  | builtin (name : String)
  deriving DecidableEq

/-- The value of a read from a table of strings; `undefined` is `none`. -/
def Property.toValue : Property String → Option TableValue
  | .own str => some (.string str)
  | .inherited name => some (.builtin name)
  | .missing => none

/-- `a || b` for a read `a` from a table of strings: `undefined` and the empty string
are falsy, a built-in function or object is truthy. -/
def jsOr (a : Property String) (b : Option TableValue) : Option TableValue :=
  match a with
  | .own str => if str = "" then b else some (.string str)
  | .inherited name => some (.builtin name)
  | .missing => b

/-! ## Guest admission price -/

/-- `calculateGuestAdmission(regularPrice, memberLocation, visitLocation)`. The result
is `none` when it is not a price: a key that names a property inherited from
`Object.prototype` makes the function compute with a built-in function or object of the
engine, which gives `NaN` or a number taken from that built-in. A rate of the map is
falsy when it is 0. -/
def calculateGuestAdmission (fp : Arithmetic) (cfg : PricingConfig) (regularPrice : ℚ)
    (memberLocation visitLocation : String) : Option ℚ :=
  let discountMap := cfg.GuestDiscounts.discountMap
  match getProperty discountMap memberLocation with
  | .missing => some regularPrice
  | .inherited _ => none
  | .own row =>
    match getProperty row visitLocation with
    | .missing => some regularPrice
    | .inherited _ => none
    | .own discountRate =>
      if discountRate = 0 then some regularPrice
      else some (mathRound (fp.mul regularPrice (fp.sub 1 discountRate)))

/-! ## Welcome Program pricing -/

/-- The exceptions thrown by the embedded code. -/
inductive JsError where
  | ReferenceError (name : String)
  deriving DecidableEq

/-- The record `regularAdmissionOptions` that the service hands to
`calculateRegularAdmissionCost`. -/
structure RegularAdmissionOptions where
  adultCount : ℚ
  childrenCount : ℕ
  childAges : List ℚ
  scienceVisits : ℚ
  dpkhVisits : ℚ
  dpkrVisits : ℚ
  includeParking : Bool
  deriving DecidableEq

/-- An object that has the two functions which the service calls on
`AdmissionCostCalculator`. -/
structure AdmissionCostCalculator where
  calculateParkingCost : ℚ → Bool → ℚ
  calculateRegularAdmissionCost : RegularAdmissionOptions → ℚ

/-- The evaluation of the name `AdmissionCostCalculator` in `DiscountService.js`, where
it is a free identifier: `scope` is what the name is bound to, and with no binding the
evaluation throws a `ReferenceError`. -/
def resolveCalculator (scope : Option AdmissionCostCalculator) :
    Except JsError AdmissionCostCalculator :=
  match scope with
  | some calculator => .ok calculator
  | none => .error (.ReferenceError "AdmissionCostCalculator")

/-- The scope in which `DiscountService.js` runs in the repository: the module imports
only `PricingConfig` (line 2) and no source file defines a global of the name
`AdmissionCostCalculator` (`App.js` gets the calculator by a named import of its own),
so the name is not bound. -/
def moduleScope : Option AdmissionCostCalculator := none

/-- `getLocationLabel(locationCode)`: `labels[locationCode] || locationCode`. -/
def getLocationLabel (locationCode : String) : TableValue :=
  let labels : List (String × String) :=
    [("Science", "Discovery Place Science"),
      ("DPKH", "Discovery Place Kids-Huntersville"),
      ("DPKR", "Discovery Place Kids-Rockingham"),
      ("ScienceKids", "All Discovery Place Locations")]
  match getProperty labels locationCode with
  | .own label => if label = "" then .string locationCode else .string label
  | .inherited name => .builtin name
  | .missing => .string locationCode

/-- The `options` argument of `calculateWelcomeProgramPricing`; a missing property is
`none`. `childrenCount` is the length handed to `Array(childrenCount)`, a natural
number. -/
structure WelcomeOptions where
  people : Option ℚ
  adultCount : Option ℚ
  childrenCount : Option ℕ
  type : Option String
  location : Option String
  scienceVisits : Option ℚ
  dpkhVisits : Option ℚ
  dpkrVisits : Option ℚ
  includeParking : Option Bool
  deriving DecidableEq

/-- The constants bound by the destructuring of `options`, defaults filled in. -/
structure WelcomeArgs where
  people : ℚ
  adultCount : ℚ
  childrenCount : ℕ
  type : String
  location : String
  scienceVisits : ℚ
  dpkhVisits : ℚ
  dpkrVisits : ℚ
  includeParking : Bool
  deriving DecidableEq

/-- The destructuring `const { people = 6, adultCount = 2, childrenCount = 4,
type = "membership", location = "Science", scienceVisits = 0, dpkhVisits = 0,
dpkrVisits = 0, includeParking = true } = options`. -/
def destructure (options : WelcomeOptions) : WelcomeArgs where
  people := options.people.getD 6
  adultCount := options.adultCount.getD 2
  childrenCount := options.childrenCount.getD 4
  type := options.type.getD "membership"
  location := options.location.getD "Science"
  scienceVisits := options.scienceVisits.getD 0
  dpkhVisits := options.dpkhVisits.getD 0
  dpkrVisits := options.dpkrVisits.getD 0
  includeParking := options.includeParking.getD true

/-- A piece of a template literal of the Welcome records: literal text, an interpolated
number, or an interpolated location label. -/
inductive LabelPiece where
  | text (s : String)
  | num (x : ℚ)
  | value (v : TableValue)
  deriving DecidableEq

/-- An entry of `costBreakdown.items`; `details` may be `null`. -/
structure CostItem where
  label : List LabelPiece
  cost : ℚ
  details : Option (List LabelPiece)
  deriving DecidableEq

/-- The record `costBreakdown`. -/
structure CostBreakdown where
  items : List CostItem
  deriving DecidableEq

/-- The record returned in membership mode. -/
structure WelcomeMembership where
  basePrice : ℚ
  parkingCost : ℚ
  crossLocationCost : ℚ
  totalPrice : ℚ
  location : String
  locationLabel : TableValue
  maxPeople : ℚ
  peopleIncluded : ℚ
  type : String
  bestMembershipType : String
  bestMembershipLabel : List LabelPiece
  purchaseLink : Option TableValue
  infoLink : Option TableValue
  regularAdmissionCost : ℚ
  bestMembershipSavings : ℚ
  savingsPercentage : ℚ
  iconType : String
  explanation : List LabelPiece
  costBreakdown : CostBreakdown
  deriving DecidableEq

/-- The record returned in single-visit mode. -/
structure WelcomeAdmission where
  pricePerPerson : ℚ
  admissionCost : ℚ
  parkingCost : ℚ
  totalPrice : ℚ
  people : ℚ
  location : String
  locationLabel : TableValue
  type : String
  bestMembershipType : String
  bestMembershipLabel : List LabelPiece
  purchaseLink : Option TableValue
  infoLink : Option TableValue
  iconType : String
  explanation : List LabelPiece
  costBreakdown : CostBreakdown
  deriving DecidableEq

/-- The value returned by `calculateWelcomeProgramPricing`. -/
inductive WelcomePricing where
  | membership (r : WelcomeMembership)
  | singleVisit (r : WelcomeAdmission)
  deriving DecidableEq

/-- `totalPeople = Math.min(people, welcomeConfig.maxPeople)`. -/
def totalPeople (cfg : PricingConfig) (a : WelcomeArgs) : ℚ :=
  min a.people cfg.Discounts.welcomeProgram.maxPeople

/-- `links[location] || links.Science`, for `purchaseLinks` and `infoLinks`. -/
def resolveLink (links : List (String × String)) (location : String) : Option TableValue :=
  jsOr (getProperty links location) (getProperty links "Science").toValue

/-- `parkingCost = includeParking ?
AdmissionCostCalculator.calculateParkingCost(scienceVisits, true) : 0`. -/
def welcomeParkingCost (scope : Option AdmissionCostCalculator) (a : WelcomeArgs) :
    Except JsError ℚ :=
  if a.includeParking then
    match resolveCalculator scope with
    | .ok calculator => .ok (calculator.calculateParkingCost a.scienceVisits true)
    | .error e => .error e
  else .ok 0

/-- `crossLocationVisits`: the visits to locations other than the primary one. -/
def crossLocationVisits (a : WelcomeArgs) : ℚ :=
  if a.location = "Science" then a.dpkhVisits + a.dpkrVisits
  else if a.location = "DPKH" then a.scienceVisits + a.dpkrVisits
  else if a.location = "DPKR" then a.scienceVisits + a.dpkhVisits
  else 0

/-- `crossLocationCost = crossLocationVisits * totalPeople *
welcomeConfig.singleVisitPrice`. -/
def crossLocationCost (cfg : PricingConfig) (a : WelcomeArgs) : ℚ :=
  crossLocationVisits a * totalPeople cfg a * cfg.Discounts.welcomeProgram.singleVisitPrice

/-- The record `regularAdmissionOptions`; `childAges` is
`Array(childrenCount).fill(5)`. -/
def regularAdmissionOptions (a : WelcomeArgs) : RegularAdmissionOptions where
  adultCount := a.adultCount
  childrenCount := a.childrenCount
  childAges := List.replicate a.childrenCount 5
  scienceVisits := a.scienceVisits
  dpkhVisits := a.dpkhVisits
  dpkrVisits := a.dpkrVisits
  includeParking := a.includeParking

/-- `savingsPercentage = regularAdmissionCost > 0 ?
Math.min(90, Math.round((savings / regularAdmissionCost) * 100)) : 0`. -/
def savingsPercentage (fp : Arithmetic) (savings regularAdmissionCost : ℚ) : ℚ :=
  if regularAdmissionCost > 0 then
    min 90 (mathRound (fp.mul (fp.div savings regularAdmissionCost) 100))
  else 0

/-- The membership branch (`type === "membership"`), from the values of `parkingCost`
and `regularAdmissionCost` on. -/
def welcomeMembership (fp : Arithmetic) (cfg : PricingConfig) (a : WelcomeArgs)
    (parkingCost regularAdmissionCost : ℚ) : WelcomeMembership :=
  let welcomeConfig := cfg.Discounts.welcomeProgram
  let basePrice := welcomeConfig.membershipPrice
  let totalPrice := basePrice + parkingCost + crossLocationCost cfg a
  let savings := max 0 (regularAdmissionCost - totalPrice)
  { basePrice := basePrice
    parkingCost := parkingCost
    crossLocationCost := crossLocationCost cfg a
    totalPrice := totalPrice
    location := a.location
    locationLabel := getLocationLabel a.location
    maxPeople := welcomeConfig.maxPeople
    peopleIncluded := totalPeople cfg a
    type := "Welcome"
    bestMembershipType := "Welcome"
    bestMembershipLabel :=
      [.text "Discovery Place Welcome Program Membership (",
        .value (getLocationLabel a.location), .text ")"]
    purchaseLink := resolveLink welcomeConfig.purchaseLinks a.location
    infoLink := resolveLink welcomeConfig.infoLinks a.location
    regularAdmissionCost := regularAdmissionCost
    bestMembershipSavings := savings
    savingsPercentage := savingsPercentage fp savings regularAdmissionCost
    iconType := "welcome"
    explanation :=
      [.text "Includes ", .num (totalPeople cfg a), .text " people (up to ",
        .num welcomeConfig.maxAdults, .text " adults and ", .num welcomeConfig.maxChildren,
        .text " children) with access to ", .value (getLocationLabel a.location),
        .text ". $3 admission per person at other locations."]
    costBreakdown :=
      { items :=
          [{ label :=
              [.text "Welcome Program Membership (", .value (getLocationLabel a.location),
                .text ")"]
             cost := basePrice
             details :=
              some [.text "Annual membership for up to ", .num welcomeConfig.maxPeople,
                .text " people"] },
           { label := [.text "Parking at Science"]
             cost := parkingCost
             details :=
              if a.scienceVisits > 0 then
                some [.num a.scienceVisits, .text " visits × $8 per visit"]
              else none },
           { label := [.text "Cross-location Visits"]
             cost := crossLocationCost cfg a
             details :=
              if crossLocationVisits a > 0 then
                some [.num (crossLocationVisits a), .text " visits × ",
                  .num (totalPeople cfg a), .text " people × $3 per person"]
              else none }] } }

/-- `includeParking && location === "Science" ? PricingConfig.ParkingRates.welcome : 0`. -/
def flatParking (cfg : PricingConfig) (a : WelcomeArgs) : ℚ :=
  if a.includeParking = true ∧ a.location = "Science" then cfg.ParkingRates.welcome else 0

/-- The single-visit branch (`type` other than `"membership"`). -/
def welcomeAdmission (cfg : PricingConfig) (a : WelcomeArgs) : WelcomeAdmission :=
  let welcomeConfig := cfg.Discounts.welcomeProgram
  let includedPeople := min a.people welcomeConfig.maxSingleVisitGroup
  let singleVisitPrice := welcomeConfig.singleVisitPrice
  let admissionCost := includedPeople * singleVisitPrice
  let totalPrice := admissionCost + flatParking cfg a
  { pricePerPerson := singleVisitPrice
    admissionCost := admissionCost
    parkingCost := flatParking cfg a
    totalPrice := totalPrice
    people := includedPeople
    location := a.location
    locationLabel := getLocationLabel a.location
    type := "WelcomeAdmission"
    bestMembershipType := "WelcomeAdmission"
    bestMembershipLabel :=
      [.text "Discovery Place Welcome Program Single Visit (",
        .value (getLocationLabel a.location), .text ")"]
    purchaseLink := resolveLink welcomeConfig.purchaseLinks a.location
    infoLink := resolveLink welcomeConfig.infoLinks a.location
    iconType := "welcome"
    explanation :=
      [.num singleVisitPrice, .text " per person for ", .num includedPeople,
        .text " people. Includes same-day admission to ", .value (getLocationLabel a.location),
        .text "."]
    costBreakdown :=
      { items :=
          [{ label :=
              [.text "Welcome Program Admission (", .value (getLocationLabel a.location),
                .text ")"]
             cost := admissionCost
             details :=
              some [.num includedPeople, .text " people × ", .num singleVisitPrice,
                .text " per person"] },
           { label := [.text "Parking at Science"]
             cost := flatParking cfg a
             details :=
              if a.includeParking = true ∧ a.location = "Science" then
                some [.text "$8 flat rate"]
              else none }] } }

/-- `calculateWelcomeProgramPricing(options)`. The constant `parkingCost` is computed
before the two branches, so the name `AdmissionCostCalculator` is evaluated in either
mode when `includeParking` holds, and once more in membership mode for
`regularAdmissionCost`; an exception ends the call. -/
def calculateWelcomeProgramPricing (fp : Arithmetic) (cfg : PricingConfig)
    (scope : Option AdmissionCostCalculator) (options : WelcomeOptions) :
    Except JsError WelcomePricing :=
  let a := destructure options
  match welcomeParkingCost scope a with
  | .error e => .error e
  | .ok parkingCost =>
    if a.type = "membership" then
      match resolveCalculator scope with
      | .error e => .error e
      | .ok calculator =>
        .ok (.membership (welcomeMembership fp cfg a parkingCost
          (calculator.calculateRegularAdmissionCost (regularAdmissionOptions a))))
    else .ok (.singleVisit (welcomeAdmission cfg a))

/-! ## The primary location of the specification -/

/-- Modelled from the spec: `AdmissionCostCalculator.determinePrimaryLocation` is not
among the sources, only its call site is. Section 4.3: the primary location is the
location with the greatest visit count, ties broken in the fixed priority order
Science, DPKH, DPKR; that is, the first location in that order whose count is the
maximum of the three. -/
def determinePrimaryLocation (scienceVisits dpkhVisits dpkrVisits : ℚ) : Site :=
  let greatest := max scienceVisits (max dpkhVisits dpkrVisits)
  if scienceVisits = greatest then .Science
  else if dpkhVisits = greatest then .DPKH
  else .DPKR

/-! ## Reading the results -/

/-- The Welcome prices and the parking rates of the configuration are non-negative. -/
def NonNegativeWelcomePrices (cfg : PricingConfig) : Prop :=
  0 ≤ cfg.Discounts.welcomeProgram.membershipPrice ∧
    0 ≤ cfg.Discounts.welcomeProgram.singleVisitPrice ∧
    0 ≤ cfg.ParkingRates.welcome ∧ 0 ≤ cfg.ParkingRates.standard

/-- The number of people and the three visit counts are non-negative. -/
def NonNegativeWelcomeArgs (a : WelcomeArgs) : Prop :=
  0 ≤ a.people ∧ 0 ≤ a.scienceVisits ∧ 0 ≤ a.dpkhVisits ∧ 0 ≤ a.dpkrVisits

/-- The `purchaseLink` of the result, in either mode. -/
def WelcomePricing.purchaseLink : WelcomePricing → Option TableValue
  | .membership r => r.purchaseLink
  | .singleVisit r => r.purchaseLink

/-- The `infoLink` of the result, in either mode. -/
def WelcomePricing.infoLink : WelcomePricing → Option TableValue
  | .membership r => r.infoLink
  | .singleVisit r => r.infoLink

/-- The entry `discountMap[memberLocation][visitLocation]` that
`calculateGuestAdmission` reads: an own rate of an own row, nothing, or a value that
comes from `Object.prototype`. -/
def guestDiscountEntry (cfg : PricingConfig) (memberLocation visitLocation : String) :
    Property ℚ :=
  match getProperty cfg.GuestDiscounts.discountMap memberLocation with
  | .own row => getProperty row visitLocation
  | .inherited name => .inherited name
  | .missing => .missing

/-- The rate of section 4.1 of the specification,
`guestDiscountRate(homeLocation, visitedLocation)`: the entry of the discount map, and
0 when the entry is absent. -/
def specGuestDiscountRate (cfg : PricingConfig) (memberLocation visitLocation : String) : ℚ :=
  match cfg.GuestDiscounts.discountMap.lookup memberLocation with
  | some row => (row.lookup visitLocation).getD 0
  | none => 0

/-! ## Sample data -/

/-- The operations without rounding error. Those of the engine agree with them
wherever the exact result is a double, as it is at the sample values evaluated below. -/
def exactArithmetic : Arithmetic where
  sub := fun x y => x - y
  mul := fun x y => x * y
  div := fun x y => x / y

/-- A configuration with integer prices, used to evaluate the functions. -/
def sampleConfig : PricingConfig where
  Discounts :=
    { membershipDiscount :=
        { currentRate := 1 / 4, minimumMembers := 5, eligibleLocations := ["Science", "DPKH"] }
      welcomeProgram :=
        { membershipPrice := 75
          singleVisitPrice := 3
          maxPeople := 6
          maxAdults := 2
          maxChildren := 4
          maxSingleVisitGroup := 6
          purchaseLinks := [("Science", "buy-science"), ("DPKH", "buy-dpkh"), ("DPKR", "")]
          infoLinks := [("Science", "about-science"), ("DPKH", "about-dpkh"), ("DPKR", "")] } }
  GuestDiscounts :=
    { discountMap :=
        [("Science", [("DPKH", 1 / 4), ("DPKR", 0)]), ("DPKH", [("Science", 1 / 2)])] }
  ParkingRates := { welcome := 8, standard := 18 }
  AdmissionPrices :=
    { Science := { adult := 5, child := 3, childAgeThreshold := 2 }
      DPKH := { adult := 4, child := 4, childAgeThreshold := 1 }
      DPKR :=
        { standard := { adult := 8, child := 8 }
          resident := { adult := 4, child := 4 }
          childAgeThreshold := 1 } }
  Constraints := { MAX_VISITS_PER_LOCATION := 10, MAX_ADULTS := 2, MAX_CHILDREN := 6 }

/-- A family of two adults and two children with a few visits to every location. -/
def sampleOptions : GuestOptions where
  adultCount := 2
  childAges := [5, 1]
  scienceVisits := 4
  dpkhVisits := 2
  dpkrVisits := 1
  isRichmondResident := true
  primaryLocation := "Science"

/-- One adult paying one visit to Science, with DPKH as primary location. -/
def singleVisitOptions : GuestOptions where
  adultCount := 1
  childAges := []
  scienceVisits := 1
  dpkhVisits := 0
  dpkrVisits := 0
  isRichmondResident := false
  primaryLocation := "DPKH"

/-- A Welcome membership anchored at DPKH for two adults and two children, every
property given except `type`, which takes its default. -/
def sampleWelcomeOptions : WelcomeOptions where
  people := some 4
  adultCount := some 2
  childrenCount := some 2
  type := none
  location := some "DPKH"
  scienceVisits := some 3
  dpkhVisits := some 5
  dpkrVisits := some 1
  includeParking := some true

/-- The same family asking for the single-visit price at Science. -/
def sampleSingleVisit : WelcomeOptions where
  people := some 4
  adultCount := some 2
  childrenCount := some 2
  type := some "admission"
  location := some "Science"
  scienceVisits := some 3
  dpkhVisits := some 5
  dpkrVisits := some 1
  includeParking := some true

/-- A Welcome membership at Science for one adult and one child, with one planned
visit to Science. -/
def youngChildOptions : WelcomeOptions where
  people := some 2
  adultCount := some 1
  childrenCount := some 1
  type := some "membership"
  location := some "Science"
  scienceVisits := some 1
  dpkhVisits := some 0
  dpkrVisits := some 0
  includeParking := some false

/-- Options with every property missing, so that every default applies. -/
def defaultWelcomeOptions : WelcomeOptions where
  people := none
  adultCount := none
  childrenCount := none
  type := none
  location := none
  scienceVisits := none
  dpkhVisits := none
  dpkrVisits := none
  includeParking := none

/-- The call `calculateWelcomeProgramPricing({type: "membership", location: "Science",
scienceVisits: 1, includeParking: false})`. -/
def membershipAtScience : WelcomeOptions where
  people := none
  adultCount := none
  childrenCount := none
  type := some "membership"
  location := some "Science"
  scienceVisits := some 1
  dpkhVisits := none
  dpkrVisits := none
  includeParking := some false

/-- A Welcome membership anchored at DPKH, without parking and with no visit planned
at any location. -/
def noVisitsOptions : WelcomeOptions where
  people := some 4
  adultCount := some 2
  childrenCount := some 2
  type := some "membership"
  location := some "DPKH"
  scienceVisits := some 0
  dpkhVisits := some 0
  dpkrVisits := some 0
  includeParking := some false

/-- The sample membership without parking. -/
def membershipWithoutParking : WelcomeOptions :=
  { sampleWelcomeOptions with includeParking := some false }

/-- A Welcome membership anchored at DPKR. -/
def rockinghamOptions : WelcomeOptions :=
  { youngChildOptions with location := some "DPKR" }

/-- The sample single visit at Science without parking. -/
def singleVisitWithoutParking : WelcomeOptions :=
  { sampleSingleVisit with includeParking := some false }

/-- A single visit without parking at DPKR, whose links are empty in the sample
configuration. -/
def rockinghamSingleVisit : WelcomeOptions :=
  { singleVisitWithoutParking with location := some "DPKR" }

/-- A single visit without parking at DPKH. -/
def huntersvilleSingleVisit : WelcomeOptions :=
  { singleVisitWithoutParking with location := some "DPKH" }

/-- A single visit without parking whose location code is `"constructor"`, a code
with no entry in the link tables of the sample configuration. -/
def constructorSingleVisit : WelcomeOptions :=
  { singleVisitWithoutParking with location := some "constructor" }

/-- The sample configuration with another guest-discount matrix, another membership
discount and other parking rates; admission prices and constraints are those of the
sample. -/
def otherDiscountsConfig : PricingConfig :=
  { sampleConfig with
    Discounts :=
      { sampleConfig.Discounts with
        membershipDiscount :=
          { currentRate := 1 / 2, minimumMembers := 3, eligibleLocations := ["DPKR"] } }
    GuestDiscounts := { discountMap := [] }
    ParkingRates := { welcome := 0, standard := 0 } }

end DiscountService

/-!
# Application state (App.js)

The reducer of the application, its event handlers for the family form, the validation
of the child ages, the effect that keeps the child ages in step with the children count,
and the clamping of `formatCurrency`.

* A number that may be `NaN` or infinite (an amount to format, a typed age) is a
  `JsNumber`; the counts and steps of the state are rationals.
* An action is a constructor per `case` label of the reducer, with the payload that the
  application dispatches for it; `other` stands for every type without a `case`.
* The recommendation record comes from `MembershipPriceCalculator`, which is not among
  the sources; the state is parametric in its type.
* What a callback dispatches is returned as a value; the `setTimeout` around a dispatch
  is not modelled.
* The module-level object `initialState` is shared with the state and written to in
  place; a `Session` keeps its content next to the state.
-/

namespace App

open DiscountService

/-! ## Numbers with `NaN` and infinities -/

/-- A JavaScript number: a finite value, `NaN`, `Infinity` or `-Infinity`. -/
inductive JsNumber where
  | finite (x : ℚ)
  | nan
  | infinity
  | negInfinity
  deriving DecidableEq

/-- `isNaN(x)` on a number. -/
def isNaN : JsNumber → Bool
  | .nan => true
  | _ => false

/-- The comparison `a < b`; every comparison with `NaN` is false. -/
def JsNumber.lt : JsNumber → JsNumber → Bool
  | .finite x, .finite y => decide (x < y)
  | .finite _, .infinity => true
  | .negInfinity, .finite _ => true
  | .negInfinity, .infinity => true
  | _, _ => false

/-- `Math.max(a, b)`; `NaN` when an argument is `NaN`. -/
def mathMax (a b : JsNumber) : JsNumber :=
  if isNaN a || isNaN b then .nan else if a.lt b then b else a

/-- `Math.min(a, b)`; `NaN` when an argument is `NaN`. -/
def mathMin (a b : JsNumber) : JsNumber :=
  if isNaN a || isNaN b then .nan else if b.lt a then b else a

/-! ## formatCurrency -/

/-- The constant `validAmount` of `formatCurrency`:
`Math.min(Math.max(0, isNaN(amount) ? 0 : amount), 100000)`. -/
def validAmount (amount : JsNumber) : JsNumber :=
  mathMin (mathMax (.finite 0) (if isNaN amount then .finite 0 else amount)) (.finite 100000)

/-- `formatCurrency(amount)`; `format` is the `Intl.NumberFormat("en-US", ...).format`
of the runtime. -/
def formatCurrency (format : JsNumber → String) (amount : JsNumber) : String :=
  format (validAmount amount)

/-! ## State and actions -/

/-- An entry of `childAges`: the empty string of a cleared input, or a number. -/
inductive AgeEntry where
  | blank
  | number (x : JsNumber)
  deriving DecidableEq

/-- The record `errors`. -/
structure Errors where
  childAges : List String
  deriving DecidableEq

/-- An entry of `visitDistributionData`. -/
structure ChartItem where
  name : String
  shortName : String
  value : ℚ
  fill : String
  deriving DecidableEq

/-- The state of the application; `Rec` is the type of the recommendation record. -/
structure AppState (Rec : Type) where
  currentStep : ℚ
  adultCount : ℚ
  childrenCount : ℚ
  childAges : List AgeEntry
  scienceVisits : ℚ
  dpkhVisits : ℚ
  dpkrVisits : ℚ
  isRichmondResident : Bool
  needsFlexibility : Bool
  isWelcomeEligible : Bool
  includeParking : Bool
  errors : Errors
  announcement : String
  membershipRecommendation : Option Rec
  primaryLocationIcon : String
  visitDistributionData : List ChartItem
  needsRecommendationUpdate : Bool

/-- The actions of `appReducer`. `SET_CHILD_AGE` carries `payload.index` and
`payload.age`, `UPDATE_RECOMMENDATION` the three properties of its payload. -/
inductive Action (Rec : Type) where
  | SET_STEP (payload : ℚ)
  | SET_ADULT_COUNT (payload : ℚ)
  | SET_CHILDREN_COUNT (payload : ℚ)
  | SET_CHILD_AGE (index : ℕ) (age : AgeEntry)
  | UPDATE_CHILD_AGES_ARRAY (payload : List AgeEntry)
  | SET_SCIENCE_VISITS (payload : ℚ)
  | SET_DPKH_VISITS (payload : ℚ)
  | SET_DPKR_VISITS (payload : ℚ)
  | SET_RICHMOND_RESIDENT (payload : Bool)
  | SET_NEEDS_FLEXIBILITY (payload : Bool)
  | SET_WELCOME_ELIGIBLE (payload : Bool)
  | SET_INCLUDE_PARKING (payload : Bool)
  | SET_ERRORS (payload : Errors)
  | SET_ANNOUNCEMENT (payload : String)
  | UPDATE_RECOMMENDATION (recommendation : Option Rec) (primaryLocationIcon : String)
      (visitDistributionData : List ChartItem)
  | REQUEST_RECOMMENDATION_UPDATE
  | RESET_CALCULATOR
  | other (type : String)

/-- The object `initialState` as the module declares it (lines 17 to 50). The
application never replaces the object, but it writes into the array
`initialState.errors.childAges`, which the state shares with it (see `Session`). -/
def initialState {Rec : Type} : AppState Rec where
  currentStep := 1
  adultCount := 2
  childrenCount := 2
  childAges := [.number (.finite 5), .number (.finite 7)]
  scienceVisits := 4
  dpkhVisits := 2
  dpkrVisits := 0
  isRichmondResident := false
  needsFlexibility := false
  isWelcomeEligible := false
  includeParking := true
  errors := { childAges := ["", ""] }
  announcement := ""
  membershipRecommendation := none
  primaryLocationIcon := "science"
  visitDistributionData := []
  needsRecommendationUpdate := false

/-- `appReducer(state, action)`. `initialStateNow` is the content of the module-level
object `initialState` at the time of the call, which `RESET_CALCULATOR` copies. In
`SET_CHILD_AGE` the assignment `newChildAges[index] = age` is embedded for an index
below the length of the array, the only indices the form offers (its inputs are drawn
from `childAges.slice(0, childrenCount)`). -/
def appReducer {Rec : Type} (initialStateNow state : AppState Rec) : Action Rec → AppState Rec
  | .SET_STEP payload =>
    let needsUpdate : Bool := decide (payload = 3) && decide (state.currentStep ≠ 3)
    { state with
      currentStep := payload
      needsRecommendationUpdate :=
        if needsUpdate then true else state.needsRecommendationUpdate }
  | .SET_ADULT_COUNT payload => { state with adultCount := payload }
  | .SET_CHILDREN_COUNT payload => { state with childrenCount := payload }
  | .SET_CHILD_AGE index age => { state with childAges := state.childAges.set index age }
  | .UPDATE_CHILD_AGES_ARRAY payload => { state with childAges := payload }
  | .SET_SCIENCE_VISITS payload => { state with scienceVisits := payload }
  | .SET_DPKH_VISITS payload => { state with dpkhVisits := payload }
  | .SET_DPKR_VISITS payload => { state with dpkrVisits := payload }
  | .SET_RICHMOND_RESIDENT payload => { state with isRichmondResident := payload }
  | .SET_NEEDS_FLEXIBILITY payload => { state with needsFlexibility := payload }
  | .SET_WELCOME_ELIGIBLE payload => { state with isWelcomeEligible := payload }
  | .SET_INCLUDE_PARKING payload => { state with includeParking := payload }
  | .SET_ERRORS payload => { state with errors := payload }
  | .SET_ANNOUNCEMENT payload => { state with announcement := payload }
  | .UPDATE_RECOMMENDATION recommendation primaryLocationIcon visitDistributionData =>
    { state with
      membershipRecommendation := recommendation
      primaryLocationIcon := primaryLocationIcon
      visitDistributionData := visitDistributionData
      needsRecommendationUpdate := false }
  | .REQUEST_RECOMMENDATION_UPDATE => { state with needsRecommendationUpdate := true }
  | .RESET_CALCULATOR => initialStateNow
  | .other _ => state

/-! ## Event handlers of the family form -/

/-- The action dispatched by `handleAdultCountChange(count)`. -/
def handleAdultCountChange {Rec : Type} (cfg : PricingConfig) (count : ℚ) : Action Rec :=
  .SET_ADULT_COUNT (min (max 1 count) cfg.Constraints.MAX_ADULTS)

/-- The action dispatched by `handleChildrenCountChange(count)`. -/
def handleChildrenCountChange {Rec : Type} (cfg : PricingConfig) (count : ℚ) : Action Rec :=
  .SET_CHILDREN_COUNT (min (max 0 count) cfg.Constraints.MAX_CHILDREN)

/-! ## Validation of the child ages -/

/-- The length accepted by `Array(length)`: a non-negative integer; `none` stands for
the `RangeError` thrown otherwise. -/
def arrayLength? (length : ℚ) : Option ℕ :=
  if length = ((⌊length⌋₊ : ℕ) : ℚ) then some ⌊length⌋₊ else none

/-- The message stored for an invalid age. -/
def ageMessage : String := "Please enter a valid age between 0 and 17"

/-- The test `age === "" || age < 0 || age > 17 || isNaN(age)`. -/
def invalidAge : AgeEntry → Bool
  | .blank => true
  | .number x => x.lt (.finite 0) || (JsNumber.finite 17).lt x || isNaN x

/-- The `forEach` of `validateChildAges` from a given index on, acting on the pair
`(newErrors.childAges, isValid)`. -/
def forEachAge : ℕ → List AgeEntry → List String × Bool → List String × Bool
  | _, [], acc => acc
  | index, age :: rest, acc =>
    forEachAge (index + 1) rest
      (if invalidAge age then (acc.1.set index ageMessage, false) else acc)

/-- `validateChildAges()`, on the `childrenCount` and `childAges` of the state: the
action it dispatches and the value it returns. -/
def validateChildAges {Rec : Type} (childrenCount : ℚ) (childAges : List AgeEntry) :
    Option (Action Rec × Bool) :=
  match arrayLength? childrenCount with
  | none => none
  | some n =>
    let result := forEachAge 0 (childAges.take n) (List.replicate n "", true)
    some (.SET_ERRORS { childAges := result.1 }, result.2)

/-! ## The effect that updates the child ages -/

/-- `array.slice(0, stop)`: the end is truncated towards zero, counted from the end of
the array when negative, and clamped to the array. -/
def sliceTo {α : Type} (array : List α) (stop : ℚ) : List α :=
  let relativeEnd : ℤ := if 0 ≤ stop then ⌊stop⌋ else ⌈stop⌉
  let final : ℤ :=
    if relativeEnd < 0 then max ((array.length : ℤ) + relativeEnd) 0
    else min relativeEnd (array.length : ℤ)
  array.take final.toNat

/-- The effect on `[childrenCount]`: the action it dispatches, if any.
`initialRender` is `initialRenderRef.current`. The loop
`for (let i = childAges.length; i < childrenCount; i++) newChildAges.push(5)` runs
`⌈childrenCount - childAges.length⌉` times. -/
def updateChildAgesEffect {Rec : Type} (initialRender : Bool) (childrenCount : ℚ)
    (childAges : List AgeEntry) : Option (Action Rec) :=
  if initialRender then none
  else if childrenCount > (childAges.length : ℚ) then
    some (.UPDATE_CHILD_AGES_ARRAY
      (childAges ++
        List.replicate ⌈childrenCount - (childAges.length : ℚ)⌉₊ (.number (.finite 5))))
  else if childrenCount < (childAges.length : ℚ) then
    some (.UPDATE_CHILD_AGES_ARRAY (sliceTo childAges childrenCount))
  else none

/-! ## The component and its session -/

/-- What a mounted component holds between two events: the content of the module-level
object `initialState`, the state of the reducer, whether `state.errors.childAges` is
the very array `initialState.errors.childAges`, and `initialRenderRef.current`.
The state starts as the object `initialState` itself (`useReducer(appReducer,
initialState)`), and `RESET_CALCULATOR` makes a shallow copy of it, so in both cases
the array of error messages is shared; a `SET_ERRORS` that carries a new array ends the
sharing. -/
structure Session (Rec : Type) where
  initialState : AppState Rec
  state : AppState Rec
  errorsShared : Bool
  initialRenderRef : Bool

/-- The component after its first render and the effects of that render: the mount
effect has set `initialRenderRef.current` to false, and the other effects found nothing
to dispatch. -/
def mount {Rec : Type} : Session Rec where
  initialState := initialState
  state := initialState
  errorsShared := true
  initialRenderRef := false

/-- `dispatch(action)` for an action whose payload is made of new arrays and objects. -/
def dispatch {Rec : Type} (s : Session Rec) (action : Action Rec) : Session Rec :=
  { s with
    state := appReducer s.initialState s.state action
    errorsShared :=
      match action with
      | .RESET_CALCULATOR => true
      | .SET_ERRORS _ => false
      | _ => s.errorsShared }

/-- `handleChildAgeChange(index, age)`; `age` is the empty string or the number that
the input hands over. `newErrors = { ...errors }` copies the record but not its array,
so the assignment `newErrors.childAges[index] = ...` writes into the array of the state,
which is also the array of `initialState` while the two are shared. The assignment is
embedded for an index below the length of the array, as in `SET_CHILD_AGE`. -/
def handleChildAgeChange {Rec : Type} (s : Session Rec) (index : ℕ) (age : AgeEntry) :
    Session Rec :=
  match age with
  | .blank => dispatch s (.SET_CHILD_AGE index .blank)
  | .number numAge =>
    let message : String :=
      if isNaN numAge || numAge.lt (.finite 0) || (JsNumber.finite 17).lt numAge then
        ageMessage
      else ""
    let newErrors : Errors := { childAges := s.state.errors.childAges.set index message }
    let written : AppState Rec :=
      if s.errorsShared then { s.initialState with errors := newErrors } else s.initialState
    { initialState := written
      state :=
        appReducer written (appReducer written s.state (.SET_CHILD_AGE index (.number numAge)))
          (.SET_ERRORS newErrors)
      errorsShared := s.errorsShared
      initialRenderRef := s.initialRenderRef }

/-- `resetCalculator()`: the reset is dispatched, `initialRenderRef.current` is set to
true, and the reset is announced. -/
def resetCalculator {Rec : Type} (s : Session Rec) : Session Rec :=
  dispatch { dispatch s .RESET_CALCULATOR with initialRenderRef := true }
    (.SET_ANNOUNCEMENT "Calculator has been reset to defaults.")

/-- The session after a click on "Start Over" right after the mount. -/
def afterStartOver : Session Unit := resetCalculator mount

/-- The session after "Start Over" and a request for three children. -/
def threeChildrenAfterStartOver : Session Unit :=
  dispatch afterStartOver (handleChildrenCountChange sampleConfig 3)

/-- The session after the age 99 has been typed for the first child right after the
mount. -/
def afterInvalidAge : Session Unit :=
  handleChildAgeChange mount 0 (.number (.finite 99))

/-! ## Reading the state -/

/-- The age entry is a number between 0 and 17. -/
def ValidAge (age : AgeEntry) : Prop :=
  ∃ x : ℚ, age = .number (.finite x) ∧ 0 ≤ x ∧ x ≤ 17

end App

namespace DiscountService

/-! ## Properties of the membership discount -/

/-- At `DPKR` the eligibility check returns false before reading anything else. -/
theorem eligible_DPKR_eq_false (cfg : PricingConfig) (memberCount : ℚ)
    (membershipType : Option String) :
    isEligibleForDiscount cfg memberCount "DPKR" membershipType = false := by
  simp [isEligibleForDiscount]

/-- Away from `DPKR` both remaining branches of the eligibility check compute the
conjunction of the member-count test and the location test. -/
theorem eligible_eq_and (cfg : PricingConfig) (memberCount : ℚ) (location : String)
    (membershipType : Option String) (hloc : location ≠ "DPKR") :
    isEligibleForDiscount cfg memberCount location membershipType =
      (decide (memberCount ≥ cfg.Discounts.membershipDiscount.minimumMembers) &&
        cfg.Discounts.membershipDiscount.eligibleLocations.contains location) := by
  simp only [isEligibleForDiscount, if_neg hloc]
  split
  · next h => simp [h.2]
  · rfl

/-- Away from `DPKR`, eligibility as a proposition. -/
theorem eligible_iff_and (cfg : PricingConfig) (memberCount : ℚ) (location : String)
    (membershipType : Option String) (hloc : location ≠ "DPKR") :
    isEligibleForDiscount cfg memberCount location membershipType = true ↔
      memberCount ≥ cfg.Discounts.membershipDiscount.minimumMembers ∧
        location ∈ cfg.Discounts.membershipDiscount.eligibleLocations := by
  rw [eligible_eq_and cfg memberCount location membershipType hloc]
  simp

/-- C1: for every member count, membership type and configuration, the location
`DPKR` is not eligible for the membership discount. -/
theorem isEligibleForDiscount_DPKR (cfg : PricingConfig) (memberCount : ℚ)
    (membershipType : Option String) :
    isEligibleForDiscount cfg memberCount "DPKR" membershipType = false := by
  simp [isEligibleForDiscount]

/-- C2: for a location other than `DPKR`, eligibility holds exactly when the member
count reaches `minimumMembers` and the location is listed in `eligibleLocations`;
the membership type does not influence the result. -/
theorem isEligibleForDiscount_iff (cfg : PricingConfig) (memberCount : ℚ) (location : String)
    (membershipType : Option String) (hloc : location ≠ "DPKR") :
    (isEligibleForDiscount cfg memberCount location membershipType = true ↔
        memberCount ≥ cfg.Discounts.membershipDiscount.minimumMembers ∧
          location ∈ cfg.Discounts.membershipDiscount.eligibleLocations) ∧
      ∀ otherType : Option String,
        isEligibleForDiscount cfg memberCount location otherType =
          isEligibleForDiscount cfg memberCount location membershipType := by
  exact ⟨eligible_iff_and cfg memberCount location membershipType hloc, fun t => by
    rw [eligible_eq_and cfg memberCount location t hloc,
      eligible_eq_and cfg memberCount location membershipType hloc]⟩

/-- Witness of C2 on the sample configuration: five members at Science. -/
theorem isEligibleForDiscount_iff_witness :
    "Science" ≠ "DPKR" ∧
      ((isEligibleForDiscount sampleConfig 5 "Science" (some "ScienceKids") = true ↔
          (5 : ℚ) ≥ sampleConfig.Discounts.membershipDiscount.minimumMembers ∧
            "Science" ∈ sampleConfig.Discounts.membershipDiscount.eligibleLocations) ∧
        ∀ otherType : Option String,
          isEligibleForDiscount sampleConfig 5 "Science" otherType =
            isEligibleForDiscount sampleConfig 5 "Science" (some "ScienceKids")) :=
  ⟨by decide, isEligibleForDiscount_iff sampleConfig 5 "Science" (some "ScienceKids") (by decide)⟩

/-- C3: for a fixed location, membership type and configuration, eligibility is
monotone in the member count: once it holds for `m` it holds for every larger count. -/
theorem isEligibleForDiscount_mono (cfg : PricingConfig) (location : String)
    (membershipType : Option String) (m m' : ℚ) (hle : m ≤ m')
    (h : isEligibleForDiscount cfg m location membershipType = true) :
    isEligibleForDiscount cfg m' location membershipType = true := by
  by_cases hloc : location = "DPKR"
  · subst hloc
    rw [eligible_DPKR_eq_false] at h
    exact absurd h (by decide)
  · have h1 := eligible_iff_and cfg m location membershipType hloc
    have h2 := eligible_iff_and cfg m' location membershipType hloc
    obtain ⟨hm, hmem⟩ := h1.mp h
    exact h2.mpr ⟨le_trans hm hle, hmem⟩

/-- Witness of C3 on the sample configuration: from five to seven members at Science. -/
theorem isEligibleForDiscount_mono_witness :
    (5 : ℚ) ≤ 7 ∧ isEligibleForDiscount sampleConfig 5 "Science" none = true ∧
      isEligibleForDiscount sampleConfig 7 "Science" none = true :=
  ⟨by norm_num, by simp [isEligibleForDiscount, sampleConfig],
    isEligibleForDiscount_mono sampleConfig "Science" none 5 7 (by norm_num)
      (by simp [isEligibleForDiscount, sampleConfig])⟩

/-- `Math.round` returns an integer at distance at most one half of its argument. -/
theorem mathRound_nearest (x : ℚ) :
    ∃ n : ℤ, mathRound x = (n : ℚ) ∧ x - 1 / 2 < (n : ℚ) ∧ (n : ℚ) ≤ x + 1 / 2 := by
  refine ⟨⌊x + 1 / 2⌋, rfl, ?_, Int.floor_le _⟩
  have h := Int.lt_floor_add_one (x + 1 / 2)
  linarith

/-- `Math.round x` is below an integer exactly when `x + 1 / 2` is. -/
theorem mathRound_lt_int_iff (x : ℚ) (p : ℤ) : mathRound x < (p : ℚ) ↔ x + 1 / 2 < (p : ℚ) := by
  unfold mathRound
  rw [Int.cast_lt, Int.floor_lt]

/-- With exact operations `applyDiscountWith` is `applyDiscount`. -/
theorem applyDiscountWith_exact (cfg : PricingConfig) (price memberCount : ℚ)
    (location : String) (membershipType : Option String) :
    applyDiscountWith exactArithmetic cfg price
        memberCount location membershipType =
      applyDiscount cfg price memberCount location membershipType := rfl

/-- C4: `applyDiscount` returns `Math.round(price * (1 - currentRate))`, the
subtraction and the product being those of the engine and the rounding, to the nearest
integer, applied once, when `isEligibleForDiscount` holds for the same arguments, and
the price itself when it does not; a `DPKR` membership and a family below
`minimumMembers` keep their price. -/
theorem applyDiscount_spec (fp : Arithmetic) (cfg : PricingConfig) (price memberCount : ℚ)
    (location : String) (membershipType : Option String) :
    (isEligibleForDiscount cfg memberCount location membershipType = true →
        applyDiscountWith fp cfg price memberCount location membershipType =
          mathRound (fp.mul price (fp.sub 1 cfg.Discounts.membershipDiscount.currentRate))) ∧
      (isEligibleForDiscount cfg memberCount location membershipType = false →
        applyDiscountWith fp cfg price memberCount location membershipType = price) ∧
      (∃ n : ℤ,
        mathRound (fp.mul price (fp.sub 1 cfg.Discounts.membershipDiscount.currentRate)) =
            (n : ℚ) ∧
          fp.mul price (fp.sub 1 cfg.Discounts.membershipDiscount.currentRate) - 1 / 2 <
            (n : ℚ) ∧
          (n : ℚ) ≤
            fp.mul price (fp.sub 1 cfg.Discounts.membershipDiscount.currentRate) + 1 / 2) ∧
      applyDiscountWith fp cfg price memberCount "DPKR" membershipType = price ∧
      (memberCount < cfg.Discounts.membershipDiscount.minimumMembers →
        applyDiscountWith fp cfg price memberCount location membershipType = price) := by
  refine ⟨fun h => by simp [applyDiscountWith, h], fun h => by simp [applyDiscountWith, h],
    mathRound_nearest _, by simp [applyDiscountWith, eligible_DPKR_eq_false], fun hlt => ?_⟩
  have hne : isEligibleForDiscount cfg memberCount location membershipType = false := by
    by_cases hloc : location = "DPKR"
    · subst hloc
      exact eligible_DPKR_eq_false cfg memberCount membershipType
    · have h := eligible_iff_and cfg memberCount location membershipType hloc
      cases hb : isEligibleForDiscount cfg memberCount location membershipType
      · rfl
      · exact absurd (h.mp hb).1 (not_le.mpr hlt)
  simp [applyDiscountWith, hne]

/-- C5, counterexample: on the sample configuration (rate one quarter, five members
required, Science eligible) a base price of 1 for five members at Science is eligible,
yet the discounted price is again 1, not strictly less. -/
theorem applyDiscount_not_strict :
    (0 : ℤ) < 1 ∧ 0 < sampleConfig.Discounts.membershipDiscount.currentRate ∧
      sampleConfig.Discounts.membershipDiscount.currentRate < 1 ∧
      (5 : ℚ) = sampleConfig.Discounts.membershipDiscount.minimumMembers ∧
      isEligibleForDiscount sampleConfig 5 "Science" none = true ∧
      applyDiscount sampleConfig ((1 : ℤ) : ℚ) 5 "Science" none = 1 ∧
      ¬ applyDiscount sampleConfig ((1 : ℤ) : ℚ) 5 "Science" none < ((1 : ℤ) : ℚ) := by
  have h : applyDiscount sampleConfig ((1 : ℤ) : ℚ) 5 "Science" none = 1 := by
    norm_num [applyDiscount, isEligibleForDiscount, sampleConfig, mathRound, Int.floor_eq_iff]
  refine ⟨by decide, by norm_num [sampleConfig], by norm_num [sampleConfig],
    by norm_num [sampleConfig], by simp [isEligibleForDiscount, sampleConfig], h, ?_⟩
  rw [h]
  norm_num

/-- C5, amended: for a positive integer base price, a rate strictly between 0 and 1 and
eligible arguments, the discounted price never exceeds the base price, and it is
strictly less exactly when `price * currentRate` exceeds one half. -/
theorem applyDiscount_le_and_lt_iff (cfg : PricingConfig) (price : ℤ) (memberCount : ℚ)
    (location : String) (membershipType : Option String) (hpos : 0 < price)
    (hr0 : 0 < cfg.Discounts.membershipDiscount.currentRate)
    (hr1 : cfg.Discounts.membershipDiscount.currentRate < 1)
    (helig : isEligibleForDiscount cfg memberCount location membershipType = true) :
    applyDiscount cfg (price : ℚ) memberCount location membershipType ≤ (price : ℚ) ∧
      (applyDiscount cfg (price : ℚ) memberCount location membershipType < (price : ℚ) ↔
        1 / 2 < (price : ℚ) * cfg.Discounts.membershipDiscount.currentRate) := by
  have hp : (0 : ℚ) < (price : ℚ) := by exact_mod_cast hpos
  have happ : applyDiscount cfg (price : ℚ) memberCount location membershipType =
      mathRound ((price : ℚ) * (1 - cfg.Discounts.membershipDiscount.currentRate)) := by
    simp [applyDiscount, helig]
  have hmul : 0 < (price : ℚ) * cfg.Discounts.membershipDiscount.currentRate :=
    mul_pos hp hr0
  rw [happ]
  constructor
  · have h1 : mathRound ((price : ℚ) * (1 - cfg.Discounts.membershipDiscount.currentRate)) <
        ((price + 1 : ℤ) : ℚ) := by
      rw [mathRound_lt_int_iff]
      push_cast
      linarith
    unfold mathRound at h1 ⊢
    rw [Int.cast_lt] at h1
    rw [Int.cast_le]
    omega
  · rw [mathRound_lt_int_iff]
    constructor <;> intro h <;> linarith

/-- Witness of the amended C5 on the sample configuration: a base price of 100 for five
members at Science. -/
theorem applyDiscount_le_and_lt_iff_witness :
    (0 : ℤ) < 100 ∧ isEligibleForDiscount sampleConfig 5 "Science" none = true ∧
      applyDiscount sampleConfig ((100 : ℤ) : ℚ) 5 "Science" none ≤ ((100 : ℤ) : ℚ) ∧
      (applyDiscount sampleConfig ((100 : ℤ) : ℚ) 5 "Science" none < ((100 : ℤ) : ℚ) ↔
        1 / 2 < ((100 : ℤ) : ℚ) * sampleConfig.Discounts.membershipDiscount.currentRate) :=
  ⟨by decide, by simp [isEligibleForDiscount, sampleConfig],
    applyDiscount_le_and_lt_iff sampleConfig 100 5 "Science" none (by decide)
      (by norm_num [sampleConfig]) (by norm_num [sampleConfig])
      (by simp [isEligibleForDiscount, sampleConfig])⟩

/-! ## Properties of the guest admission savings -/

/-- The breakdown of a block: the old lines, then the line of the block when it fires. -/
theorem processVisits_fst (cfg : PricingConfig) (o : GuestOptions) (site : Site)
    (acc : List BreakdownLine × ℚ) :
    (processVisits cfg o site acc).1 =
      acc.1 ++ (if 0 < cappedVisits cfg o site ∧ 0 < totalSaving cfg o site
        then [breakdownLine cfg o site] else []) := by
  unfold processVisits
  by_cases h1 : 0 < cappedVisits cfg o site <;> by_cases h2 : 0 < totalSaving cfg o site <;>
    simp [h1, h2]

/-- The running total of a block: the old total, plus the saving of the block when it
fires. -/
theorem processVisits_snd (cfg : PricingConfig) (o : GuestOptions) (site : Site)
    (acc : List BreakdownLine × ℚ) :
    (processVisits cfg o site acc).2 =
      acc.2 + (if 0 < cappedVisits cfg o site ∧ 0 < totalSaving cfg o site
        then totalSaving cfg o site else 0) := by
  unfold processVisits
  by_cases h1 : 0 < cappedVisits cfg o site <;> by_cases h2 : 0 < totalSaving cfg o site <;>
    simp [h1, h2]

/-- The returned breakdown, block by block. -/
theorem breakdown_eq (cfg : PricingConfig) (o : GuestOptions) :
    (calculateGuestAdmissionSavings cfg o).breakdown =
      (if 0 < cappedVisits cfg o .Science ∧ 0 < totalSaving cfg o .Science
        then [breakdownLine cfg o .Science] else []) ++
      ((if 0 < cappedVisits cfg o .DPKH ∧ 0 < totalSaving cfg o .DPKH
        then [breakdownLine cfg o .DPKH] else []) ++
      (if 0 < cappedVisits cfg o .DPKR ∧ 0 < totalSaving cfg o .DPKR
        then [breakdownLine cfg o .DPKR] else [])) := by
  simp only [calculateGuestAdmissionSavings, processVisits_fst, List.nil_append,
    List.append_assoc]

/-- The returned total, block by block. -/
theorem total_eq (cfg : PricingConfig) (o : GuestOptions) :
    (calculateGuestAdmissionSavings cfg o).total =
      (if 0 < cappedVisits cfg o .Science ∧ 0 < totalSaving cfg o .Science
        then totalSaving cfg o .Science else 0) +
      (if 0 < cappedVisits cfg o .DPKH ∧ 0 < totalSaving cfg o .DPKH
        then totalSaving cfg o .DPKH else 0) +
      (if 0 < cappedVisits cfg o .DPKR ∧ 0 < totalSaving cfg o .DPKR
        then totalSaving cfg o .DPKR else 0) := by
  simp only [calculateGuestAdmissionSavings, processVisits_snd, zero_add]

/-- The saving of a block as the capped visits times the rate times the regular cost
of one visit. -/
theorem totalSaving_eq (cfg : PricingConfig) (o : GuestOptions) (site : Site) :
    totalSaving cfg o site =
      cappedVisits cfg o site * discountRate o site *
        (o.adultCount * regularAdultPrice cfg o site +
          eligibleChildren cfg o site * regularChildPrice cfg o site) := by
  simp only [totalSaving, adultSaving, childSaving, discountedAdultPrice, discountedChildPrice]
  ring

/-- The line of a block is recognised as a line of its location. -/
theorem lineSite_breakdownLine (cfg : PricingConfig) (o : GuestOptions) (site : Site) :
    lineSite (breakdownLine cfg o site) = some site := by
  cases site <;> simp [lineSite, breakdownLine, labelHead]

/-- C6: for each of the three locations, a visit count at or above
`MAX_VISITS_PER_LOCATION` gives the same result, total and breakdown, as the visit
count `MAX_VISITS_PER_LOCATION` itself, all other inputs equal. -/
theorem calculateGuestAdmissionSavings_capped (cfg : PricingConfig) (o : GuestOptions)
    (site : Site) (v : ℚ) (hv : v ≥ cfg.Constraints.MAX_VISITS_PER_LOCATION) :
    calculateGuestAdmissionSavings cfg (setVisits o site v) =
      calculateGuestAdmissionSavings cfg
        (setVisits o site cfg.Constraints.MAX_VISITS_PER_LOCATION) := by
  cases site <;>
    simp [calculateGuestAdmissionSavings, processVisits, breakdownLine, totalSaving,
      adultSaving, childSaving, discountedAdultPrice, discountedChildPrice, regularAdultPrice,
      regularChildPrice, dpkrTier, eligibleChildren, cappedVisits, discountRate, visits,
      setVisits, min_eq_right hv]

/-- Witness of C6 on the sample data: 60 Science visits against the cap of 10. -/
theorem calculateGuestAdmissionSavings_capped_witness :
    (60 : ℚ) ≥ sampleConfig.Constraints.MAX_VISITS_PER_LOCATION ∧
      calculateGuestAdmissionSavings sampleConfig (setVisits sampleOptions .Science 60) =
        calculateGuestAdmissionSavings sampleConfig
          (setVisits sampleOptions .Science sampleConfig.Constraints.MAX_VISITS_PER_LOCATION) :=
  ⟨by norm_num [sampleConfig],
    calculateGuestAdmissionSavings_capped sampleConfig sampleOptions .Science 60
      (by norm_num [sampleConfig])⟩

/-- Capped visits are non-negative when the visits and the cap are. -/
theorem cappedVisits_nonneg (cfg : PricingConfig) (o : GuestOptions) (site : Site)
    (hmax : 0 ≤ cfg.Constraints.MAX_VISITS_PER_LOCATION) (ho : NonNegativeCounts o) :
    0 ≤ cappedVisits cfg o site := by
  obtain ⟨_, h1, h2, h3⟩ := ho
  cases site <;> simp only [cappedVisits, visits] <;> exact le_min (by assumption) hmax

/-- The number of eligible children is non-negative. -/
theorem eligibleChildren_nonneg (cfg : PricingConfig) (o : GuestOptions) (site : Site) :
    0 ≤ eligibleChildren cfg o site := by
  unfold eligibleChildren
  exact Nat.cast_nonneg _

/-- The discount rate of a block is positive. -/
theorem discountRate_pos (o : GuestOptions) (site : Site) : 0 < discountRate o site := by
  unfold discountRate
  split <;> norm_num

/-- With non-negative prices and counts, what a block adds to the total is its saving:
a block that does not fire has saving zero. -/
theorem fired_saving_eq (cfg : PricingConfig) (o : GuestOptions) (site : Site)
    (hp : NonNegativePrices cfg) (hmax : 0 ≤ cfg.Constraints.MAX_VISITS_PER_LOCATION)
    (ho : NonNegativeCounts o) :
    (if 0 < cappedVisits cfg o site ∧ 0 < totalSaving cfg o site
      then totalSaving cfg o site else 0) = totalSaving cfg o site := by
  have hc := cappedVisits_nonneg cfg o site hmax ho
  have hk := eligibleChildren_nonneg cfg o site
  have hr := (discountRate_pos o site).le
  have ha : 0 ≤ regularAdultPrice cfg o site := by
    obtain ⟨h1, _, h3, _, h5, _, h7, _⟩ := hp
    cases site <;> simp only [regularAdultPrice, dpkrTier] <;> try assumption
    split <;> assumption
  have hch : 0 ≤ regularChildPrice cfg o site := by
    obtain ⟨_, h2, _, h4, _, h6, _, h8⟩ := hp
    cases site <;> simp only [regularChildPrice, dpkrTier] <;> try assumption
    split <;> assumption
  have hnn : 0 ≤ totalSaving cfg o site := by
    rw [totalSaving_eq]
    exact mul_nonneg (mul_nonneg hc hr)
      (add_nonneg (mul_nonneg ho.1 ha) (mul_nonneg hk hch))
  by_cases h : 0 < cappedVisits cfg o site ∧ 0 < totalSaving cfg o site
  · rw [if_pos h]
  · rw [if_neg h]
    by_cases h1 : 0 < cappedVisits cfg o site
    · have h2 : ¬ 0 < totalSaving cfg o site := fun h2 => h ⟨h1, h2⟩
      linarith [not_lt.mp h2]
    · have h0 : cappedVisits cfg o site = 0 := le_antisymm (not_lt.mp h1) hc
      rw [totalSaving_eq, h0]
      ring

/-- C7: with non-negative admission prices, a non-negative visit cap, a non-negative
adult count and non-negative visit counts, the returned total is the sum over Science,
DPKH and DPKR of `min(visits, MAX_VISITS_PER_LOCATION) * rate * (adultCount * adultPrice
+ eligibleChildren * childPrice)`, where `eligibleChildren` counts the child ages at or
above the threshold of the location, `rate` is 1/2 at the primary location and 1/4
elsewhere, and the DPKR prices are those of the tier chosen by `isRichmondResident`. -/
theorem calculateGuestAdmissionSavings_total (cfg : PricingConfig) (o : GuestOptions)
    (hp : NonNegativePrices cfg) (hmax : 0 ≤ cfg.Constraints.MAX_VISITS_PER_LOCATION)
    (ho : NonNegativeCounts o) :
    (calculateGuestAdmissionSavings cfg o).total =
      min o.scienceVisits cfg.Constraints.MAX_VISITS_PER_LOCATION *
          (if o.primaryLocation = "Science" then 1 / 2 else 1 / 4) *
          (o.adultCount * cfg.AdmissionPrices.Science.adult +
            (o.childAges.countP
                (fun age => decide (cfg.AdmissionPrices.Science.childAgeThreshold ≤ age)) : ℚ) *
              cfg.AdmissionPrices.Science.child) +
        min o.dpkhVisits cfg.Constraints.MAX_VISITS_PER_LOCATION *
          (if o.primaryLocation = "DPKH" then 1 / 2 else 1 / 4) *
          (o.adultCount * cfg.AdmissionPrices.DPKH.adult +
            (o.childAges.countP
                (fun age => decide (cfg.AdmissionPrices.DPKH.childAgeThreshold ≤ age)) : ℚ) *
              cfg.AdmissionPrices.DPKH.child) +
        min o.dpkrVisits cfg.Constraints.MAX_VISITS_PER_LOCATION *
          (if o.primaryLocation = "DPKR" then 1 / 2 else 1 / 4) *
          (o.adultCount *
              (if o.isRichmondResident = true then cfg.AdmissionPrices.DPKR.resident.adult
                else cfg.AdmissionPrices.DPKR.standard.adult) +
            (o.childAges.countP
                (fun age => decide (cfg.AdmissionPrices.DPKR.childAgeThreshold ≤ age)) : ℚ) *
              (if o.isRichmondResident = true then cfg.AdmissionPrices.DPKR.resident.child
                else cfg.AdmissionPrices.DPKR.standard.child)) := by
  rw [total_eq, fired_saving_eq cfg o .Science hp hmax ho,
    fired_saving_eq cfg o .DPKH hp hmax ho, fired_saving_eq cfg o .DPKR hp hmax ho]
  simp only [totalSaving_eq, cappedVisits, visits, discountRate, Site.code, eligibleChildren,
    childAgeThreshold, regularAdultPrice, regularChildPrice, dpkrTier, List.countP_eq_length_filter]
  cases o.isRichmondResident <;> simp

/-- Witness of C7 on the sample data: 26 at Science, 8 at DPKH and 4 at DPKR. -/
theorem calculateGuestAdmissionSavings_total_witness :
    NonNegativePrices sampleConfig ∧ NonNegativeCounts sampleOptions ∧
      (calculateGuestAdmissionSavings sampleConfig sampleOptions).total = 38 :=
  ⟨by norm_num [NonNegativePrices, sampleConfig], by norm_num [NonNegativeCounts, sampleOptions],
    (calculateGuestAdmissionSavings_total sampleConfig sampleOptions
      (by norm_num [NonNegativePrices, sampleConfig]) (by norm_num [sampleConfig])
      (by norm_num [NonNegativeCounts, sampleOptions])).trans
      (by
        have h1 : ¬ ("Science" = "DPKH") := by decide
        have h2 : ¬ ("Science" = "DPKR") := by decide
        norm_num [sampleConfig, sampleOptions, h1, h2])⟩

/-- A location has a line in the breakdown exactly when its block fired. -/
theorem exists_line_iff (cfg : PricingConfig) (o : GuestOptions) (site : Site) :
    (∃ l ∈ (calculateGuestAdmissionSavings cfg o).breakdown, lineSite l = some site) ↔
      0 < cappedVisits cfg o site ∧ 0 < totalSaving cfg o site := by
  rw [breakdown_eq]
  by_cases h1 : 0 < cappedVisits cfg o .Science ∧ 0 < totalSaving cfg o .Science <;>
    by_cases h2 : 0 < cappedVisits cfg o .DPKH ∧ 0 < totalSaving cfg o .DPKH <;>
    by_cases h3 : 0 < cappedVisits cfg o .DPKR ∧ 0 < totalSaving cfg o .DPKR <;>
    cases site <;>
    simp [h1, h2, h3, lineSite_breakdownLine]

/-- C8: the breakdown holds a line for a location exactly when the block of that
location computed a saving (its capped visits are positive) and that saving is
strictly positive; it holds at most one line per location, and the lines come in the
order Science, DPKH, DPKR. For a non-negative adult count and non-negative prices a
positive saving already forces positive capped visits. -/
theorem breakdown_lines (cfg : PricingConfig) (o : GuestOptions) :
    (calculateGuestAdmissionSavings cfg o).breakdown.map lineSite =
        ([Site.Science, Site.DPKH, Site.DPKR].filter
          (fun site => decide (0 < cappedVisits cfg o site ∧ 0 < totalSaving cfg o site))).map
          some ∧
      (∀ site : Site,
        (∃ l ∈ (calculateGuestAdmissionSavings cfg o).breakdown, lineSite l = some site) ↔
          0 < cappedVisits cfg o site ∧ 0 < totalSaving cfg o site) ∧
      (∀ site : Site,
        (calculateGuestAdmissionSavings cfg o).breakdown.countP
          (fun l => decide (lineSite l = some site)) ≤ 1) ∧
      List.Sublist ((calculateGuestAdmissionSavings cfg o).breakdown.map lineSite)
        [some Site.Science, some Site.DPKH, some Site.DPKR] ∧
      (∀ site : Site, 0 ≤ o.adultCount → 0 ≤ regularAdultPrice cfg o site →
        0 ≤ regularChildPrice cfg o site → 0 < totalSaving cfg o site →
          0 < cappedVisits cfg o site) := by
  refine ⟨?_, exists_line_iff cfg o, ?_, ?_, ?_⟩ <;> try rw [breakdown_eq]
  · by_cases h1 : 0 < cappedVisits cfg o .Science ∧ 0 < totalSaving cfg o .Science <;>
      by_cases h2 : 0 < cappedVisits cfg o .DPKH ∧ 0 < totalSaving cfg o .DPKH <;>
      by_cases h3 : 0 < cappedVisits cfg o .DPKR ∧ 0 < totalSaving cfg o .DPKR <;>
      simp [h1, h2, h3, lineSite_breakdownLine, List.filter_cons]
  · intro site
    by_cases h1 : 0 < cappedVisits cfg o .Science ∧ 0 < totalSaving cfg o .Science <;>
      by_cases h2 : 0 < cappedVisits cfg o .DPKH ∧ 0 < totalSaving cfg o .DPKH <;>
      by_cases h3 : 0 < cappedVisits cfg o .DPKR ∧ 0 < totalSaving cfg o .DPKR <;>
      cases site <;>
      simp [h1, h2, h3, lineSite_breakdownLine, List.countP_cons]
  · by_cases h1 : 0 < cappedVisits cfg o .Science ∧ 0 < totalSaving cfg o .Science <;>
      by_cases h2 : 0 < cappedVisits cfg o .DPKH ∧ 0 < totalSaving cfg o .DPKH <;>
      by_cases h3 : 0 < cappedVisits cfg o .DPKR ∧ 0 < totalSaving cfg o .DPKR <;>
      simp [h1, h2, h3, lineSite_breakdownLine]
  · intro site ha hpa hpc hpos
    by_contra hc
    have hle : cappedVisits cfg o site ≤ 0 := not_lt.mp hc
    have hr := (discountRate_pos o site).le
    have hk := eligibleChildren_nonneg cfg o site
    rw [totalSaving_eq] at hpos
    have : cappedVisits cfg o site * discountRate o site *
        (o.adultCount * regularAdultPrice cfg o site +
          eligibleChildren cfg o site * regularChildPrice cfg o site) ≤ 0 :=
      mul_nonpos_of_nonpos_of_nonneg (mul_nonpos_of_nonpos_of_nonneg hle hr)
        (add_nonneg (mul_nonneg ha hpa) (mul_nonneg hk hpc))
    linarith

/-- The residency flag does not enter the capped visits. -/
theorem cappedVisits_resident (cfg : PricingConfig) (o : GuestOptions) (b : Bool) (site : Site) :
    cappedVisits cfg { o with isRichmondResident := b } site = cappedVisits cfg o site := by
  cases site <;> rfl

/-- The residency flag does not enter the saving of Science or DPKH. -/
theorem totalSaving_resident (cfg : PricingConfig) (o : GuestOptions) (b : Bool) (site : Site)
    (hsite : site ≠ Site.DPKR) :
    totalSaving cfg { o with isRichmondResident := b } site = totalSaving cfg o site := by
  cases site
  · rfl
  · rfl
  · exact absurd rfl hsite

/-- The residency flag does not enter the breakdown line of Science or DPKH. -/
theorem breakdownLine_resident (cfg : PricingConfig) (o : GuestOptions) (b : Bool) (site : Site)
    (hsite : site ≠ Site.DPKR) :
    breakdownLine cfg { o with isRichmondResident := b } site = breakdownLine cfg o site := by
  cases site
  · rfl
  · rfl
  · exact absurd rfl hsite

/-- The saving of the DPKR block, written with the price tier that the residency flag
selects. -/
theorem totalSaving_DPKR (cfg : PricingConfig) (o : GuestOptions) :
    totalSaving cfg o Site.DPKR =
      min o.dpkrVisits cfg.Constraints.MAX_VISITS_PER_LOCATION * o.adultCount *
          ((if o.isRichmondResident = true then cfg.AdmissionPrices.DPKR.resident.adult
              else cfg.AdmissionPrices.DPKR.standard.adult) -
            (if o.isRichmondResident = true then cfg.AdmissionPrices.DPKR.resident.adult
              else cfg.AdmissionPrices.DPKR.standard.adult) *
              (1 - if o.primaryLocation = "DPKR" then 1 / 2 else 1 / 4)) +
        min o.dpkrVisits cfg.Constraints.MAX_VISITS_PER_LOCATION *
          (o.childAges.countP
            (fun age => decide (cfg.AdmissionPrices.DPKR.childAgeThreshold ≤ age)) : ℚ) *
          ((if o.isRichmondResident = true then cfg.AdmissionPrices.DPKR.resident.child
              else cfg.AdmissionPrices.DPKR.standard.child) -
            (if o.isRichmondResident = true then cfg.AdmissionPrices.DPKR.resident.child
              else cfg.AdmissionPrices.DPKR.standard.child) *
              (1 - if o.primaryLocation = "DPKR" then 1 / 2 else 1 / 4)) := by
  simp only [totalSaving, adultSaving, childSaving, discountedAdultPrice, discountedChildPrice,
    cappedVisits, visits, discountRate, Site.code, eligibleChildren, childAgeThreshold,
    regularAdultPrice, regularChildPrice, dpkrTier, List.countP_eq_length_filter]
  cases o.isRichmondResident <;> simp

/-- Every line of the breakdown is the line of a block that fired. -/
theorem mem_breakdown (cfg : PricingConfig) (o : GuestOptions) (l : BreakdownLine)
    (hl : l ∈ (calculateGuestAdmissionSavings cfg o).breakdown) :
    ∃ site : Site, (0 < cappedVisits cfg o site ∧ 0 < totalSaving cfg o site) ∧
      l = breakdownLine cfg o site := by
  rw [breakdown_eq] at hl
  simp only [List.mem_append] at hl
  rcases hl with h | h | h
  · split_ifs at h with hc
    · exact ⟨Site.Science, hc, by simpa using h⟩
    · simp at h
  · split_ifs at h with hc
    · exact ⟨Site.DPKH, hc, by simpa using h⟩
    · simp at h
  · split_ifs at h with hc
    · exact ⟨Site.DPKR, hc, by simpa using h⟩
    · simp at h

/-- The lines of the breakdown that do not belong to DPKR. -/
theorem breakdown_filter_ne_DPKR (cfg : PricingConfig) (o : GuestOptions) :
    (calculateGuestAdmissionSavings cfg o).breakdown.filter
        (fun l => decide (lineSite l ≠ some Site.DPKR)) =
      (if 0 < cappedVisits cfg o .Science ∧ 0 < totalSaving cfg o .Science
        then [breakdownLine cfg o .Science] else []) ++
      (if 0 < cappedVisits cfg o .DPKH ∧ 0 < totalSaving cfg o .DPKH
        then [breakdownLine cfg o .DPKH] else []) := by
  rw [breakdown_eq]
  by_cases h1 : 0 < cappedVisits cfg o .Science ∧ 0 < totalSaving cfg o .Science <;>
    by_cases h2 : 0 < cappedVisits cfg o .DPKH ∧ 0 < totalSaving cfg o .DPKH <;>
    by_cases h3 : 0 < cappedVisits cfg o .DPKR ∧ 0 < totalSaving cfg o .DPKR <;>
    simp [h1, h2, h3, lineSite_breakdownLine, List.filter_cons]

/-- The total with the DPKR line taken back out is what Science and DPKH added. -/
theorem total_add_DPKR_cost (cfg : PricingConfig) (o : GuestOptions) :
    (calculateGuestAdmissionSavings cfg o).total +
        (((calculateGuestAdmissionSavings cfg o).breakdown.filter
            (fun l => decide (lineSite l = some Site.DPKR))).map BreakdownLine.cost).sum =
      (if 0 < cappedVisits cfg o .Science ∧ 0 < totalSaving cfg o .Science
        then totalSaving cfg o .Science else 0) +
      (if 0 < cappedVisits cfg o .DPKH ∧ 0 < totalSaving cfg o .DPKH
        then totalSaving cfg o .DPKH else 0) := by
  have hcost : (breakdownLine cfg o Site.DPKR).cost = -totalSaving cfg o Site.DPKR := rfl
  rw [breakdown_eq, total_eq]
  by_cases h1 : 0 < cappedVisits cfg o .Science ∧ 0 < totalSaving cfg o .Science <;>
    by_cases h2 : 0 < cappedVisits cfg o .DPKH ∧ 0 < totalSaving cfg o .DPKH <;>
    by_cases h3 : 0 < cappedVisits cfg o .DPKR ∧ 0 < totalSaving cfg o .DPKR <;>
    simp [h1, h2, h3, lineSite_breakdownLine, List.filter_cons, hcost]

/-- C9: the cost of the DPKR line is the negated DPKR saving computed from the
resident adult and child prices when `isRichmondResident` is true and from the standard
prices when it is false, the rate 1/2 or 1/4 being applied to the selected price; the
DPKR line is present exactly when the capped DPKR visits and that saving are positive;
and the lines of Science and DPKH, as well as their part of the total, are the same
whatever the value of `isRichmondResident`. -/
theorem dpkr_price_tier (cfg : PricingConfig) (o : GuestOptions) :
    (∀ l ∈ (calculateGuestAdmissionSavings cfg o).breakdown, lineSite l = some Site.DPKR →
        l.cost =
          -(min o.dpkrVisits cfg.Constraints.MAX_VISITS_PER_LOCATION * o.adultCount *
                ((if o.isRichmondResident = true then cfg.AdmissionPrices.DPKR.resident.adult
                    else cfg.AdmissionPrices.DPKR.standard.adult) -
                  (if o.isRichmondResident = true then cfg.AdmissionPrices.DPKR.resident.adult
                    else cfg.AdmissionPrices.DPKR.standard.adult) *
                    (1 - if o.primaryLocation = "DPKR" then 1 / 2 else 1 / 4)) +
              min o.dpkrVisits cfg.Constraints.MAX_VISITS_PER_LOCATION *
                (o.childAges.countP
                  (fun age => decide (cfg.AdmissionPrices.DPKR.childAgeThreshold ≤ age)) : ℚ) *
                ((if o.isRichmondResident = true then cfg.AdmissionPrices.DPKR.resident.child
                    else cfg.AdmissionPrices.DPKR.standard.child) -
                  (if o.isRichmondResident = true then cfg.AdmissionPrices.DPKR.resident.child
                    else cfg.AdmissionPrices.DPKR.standard.child) *
                    (1 - if o.primaryLocation = "DPKR" then 1 / 2 else 1 / 4)))) ∧
      ((∃ l ∈ (calculateGuestAdmissionSavings cfg o).breakdown, lineSite l = some Site.DPKR) ↔
        0 < min o.dpkrVisits cfg.Constraints.MAX_VISITS_PER_LOCATION ∧
          0 < totalSaving cfg o Site.DPKR) ∧
      (∀ b : Bool,
        (calculateGuestAdmissionSavings cfg { o with isRichmondResident := b }).breakdown.filter
            (fun l => decide (lineSite l ≠ some Site.DPKR)) =
          (calculateGuestAdmissionSavings cfg o).breakdown.filter
            (fun l => decide (lineSite l ≠ some Site.DPKR))) ∧
      (∀ b : Bool,
        (calculateGuestAdmissionSavings cfg { o with isRichmondResident := b }).total +
            (((calculateGuestAdmissionSavings cfg
                  { o with isRichmondResident := b }).breakdown.filter
                (fun l => decide (lineSite l = some Site.DPKR))).map
              BreakdownLine.cost).sum =
          (calculateGuestAdmissionSavings cfg o).total +
            (((calculateGuestAdmissionSavings cfg o).breakdown.filter
                (fun l => decide (lineSite l = some Site.DPKR))).map BreakdownLine.cost).sum) := by
  have hS := fun b => totalSaving_resident cfg o b Site.Science (by decide)
  have hH := fun b => totalSaving_resident cfg o b Site.DPKH (by decide)
  have hlS := fun b => breakdownLine_resident cfg o b Site.Science (by decide)
  have hlH := fun b => breakdownLine_resident cfg o b Site.DPKH (by decide)
  refine ⟨?_, ?_, ?_, ?_⟩
  · rw [← totalSaving_DPKR]
    intro l hl hsite
    obtain ⟨site, _, rfl⟩ := mem_breakdown cfg o l hl
    rw [lineSite_breakdownLine] at hsite
    cases hsite
    rfl
  · exact exists_line_iff cfg o Site.DPKR
  · intro b
    rw [breakdown_filter_ne_DPKR, breakdown_filter_ne_DPKR]
    simp only [cappedVisits_resident, hS, hH, hlS, hlH]
  · intro b
    rw [total_add_DPKR_cost, total_add_DPKR_cost]
    simp only [cappedVisits_resident, hS, hH]

/-- Integers are closed under addition. -/
theorem IsInteger.add {x y : ℚ} (hx : IsInteger x) (hy : IsInteger y) : IsInteger (x + y) := by
  obtain ⟨a, rfl⟩ := hx
  obtain ⟨b, rfl⟩ := hy
  exact ⟨a + b, by push_cast; rfl⟩

/-- Integers are closed under multiplication. -/
theorem IsInteger.mul {x y : ℚ} (hx : IsInteger x) (hy : IsInteger y) : IsInteger (x * y) := by
  obtain ⟨a, rfl⟩ := hx
  obtain ⟨b, rfl⟩ := hy
  exact ⟨a * b, by push_cast; rfl⟩

/-- Integers are closed under negation. -/
theorem IsInteger.neg {x : ℚ} (hx : IsInteger x) : IsInteger (-x) := by
  obtain ⟨a, rfl⟩ := hx
  exact ⟨-a, by push_cast; rfl⟩

/-- Integers are closed under `Math.min`. -/
theorem IsInteger.min {x y : ℚ} (hx : IsInteger x) (hy : IsInteger y) : IsInteger (min x y) := by
  rcases min_choice x y with h | h <;> rw [h] <;> assumption

/-- Five quarters is not an integer. -/
theorem not_isInteger_five_quarters : ¬ IsInteger (5 / 4) := by
  rintro ⟨n, hn⟩
  have h : (5 : ℚ) = ((4 * n : ℤ) : ℚ) := by
    push_cast
    linarith
  have h2 : (5 : ℤ) = 4 * n := by exact_mod_cast h
  omega

/-- Four times the saving of a block is an integer when prices, cap and counts are. -/
theorem isInteger_four_mul_totalSaving (cfg : PricingConfig) (o : GuestOptions) (site : Site)
    (hp : IntegerPrices cfg) (hmax : IsInteger cfg.Constraints.MAX_VISITS_PER_LOCATION)
    (ho : IntegerCounts o) : IsInteger (4 * totalSaving cfg o site) := by
  obtain ⟨p1, p2, p3, p4, p5, p6, p7, p8⟩ := hp
  obtain ⟨hadult, _, v1, v2, v3⟩ := ho
  have hc : IsInteger (cappedVisits cfg o site) := by
    cases site <;> exact IsInteger.min (by assumption) hmax
  have hk : IsInteger (eligibleChildren cfg o site) := ⟨_, (Int.cast_natCast _).symm⟩
  have hr : IsInteger (4 * discountRate o site) := by
    unfold discountRate
    split
    · exact ⟨2, by norm_num⟩
    · exact ⟨1, by norm_num⟩
  have ha : IsInteger (regularAdultPrice cfg o site) := by
    cases site <;> simp only [regularAdultPrice, dpkrTier] <;> try assumption
    split <;> assumption
  have hch : IsInteger (regularChildPrice cfg o site) := by
    cases site <;> simp only [regularChildPrice, dpkrTier] <;> try assumption
    split <;> assumption
  have heq : 4 * totalSaving cfg o site =
      cappedVisits cfg o site * (4 * discountRate o site) *
        (o.adultCount * regularAdultPrice cfg o site +
          eligibleChildren cfg o site * regularChildPrice cfg o site) := by
    rw [totalSaving_eq]
    ring
  rw [heq]
  exact ((hc.mul hr).mul ((hadult.mul ha).add (hk.mul hch)))

/-- C10, counterexample: with the integer prices of the sample configuration, one adult
visiting Science once away from the primary location saves 5/4, so the total is not an
integer, and neither is the cost of the single breakdown line. -/
theorem calculateGuestAdmissionSavings_not_integer :
    IntegerPrices sampleConfig ∧ IntegerCounts singleVisitOptions ∧
      (calculateGuestAdmissionSavings sampleConfig singleVisitOptions).total = 5 / 4 ∧
      (calculateGuestAdmissionSavings sampleConfig singleVisitOptions).breakdown.map
          BreakdownLine.cost = [-(5 / 4)] ∧
      ¬ IsInteger (calculateGuestAdmissionSavings sampleConfig singleVisitOptions).total ∧
      ¬ ∀ l ∈ (calculateGuestAdmissionSavings sampleConfig singleVisitOptions).breakdown,
          IsInteger l.cost := by
  have hS : "DPKH" ≠ "Science" := by decide
  have hcS : cappedVisits sampleConfig singleVisitOptions .Science = 1 := by
    norm_num [cappedVisits, visits, sampleConfig, singleVisitOptions]
  have hcH : cappedVisits sampleConfig singleVisitOptions .DPKH = 0 := by
    norm_num [cappedVisits, visits, sampleConfig, singleVisitOptions]
  have hcR : cappedVisits sampleConfig singleVisitOptions .DPKR = 0 := by
    norm_num [cappedVisits, visits, sampleConfig, singleVisitOptions]
  have htS : totalSaving sampleConfig singleVisitOptions .Science = 5 / 4 := by
    rw [totalSaving_eq, hcS]
    norm_num [discountRate, Site.code, regularAdultPrice, regularChildPrice, eligibleChildren,
      sampleConfig, singleVisitOptions, hS]
  have htotal : (calculateGuestAdmissionSavings sampleConfig singleVisitOptions).total = 5 / 4 := by
    rw [total_eq, hcS, hcH, hcR, htS]
    norm_num
  have hcosts : (calculateGuestAdmissionSavings sampleConfig singleVisitOptions).breakdown.map
      BreakdownLine.cost = [-(5 / 4)] := by
    rw [breakdown_eq, hcS, hcH, hcR, htS]
    have hcost : (breakdownLine sampleConfig singleVisitOptions .Science).cost =
        -totalSaving sampleConfig singleVisitOptions .Science := rfl
    norm_num [hcost, htS]
  refine ⟨?_, ?_, htotal, hcosts, ?_, ?_⟩
  · exact ⟨⟨5, by norm_num [sampleConfig]⟩, ⟨3, by norm_num [sampleConfig]⟩,
      ⟨4, by norm_num [sampleConfig]⟩, ⟨4, by norm_num [sampleConfig]⟩,
      ⟨8, by norm_num [sampleConfig]⟩, ⟨8, by norm_num [sampleConfig]⟩,
      ⟨4, by norm_num [sampleConfig]⟩, ⟨4, by norm_num [sampleConfig]⟩⟩
  · exact ⟨⟨1, by norm_num [singleVisitOptions]⟩, by simp [singleVisitOptions],
      ⟨1, by norm_num [singleVisitOptions]⟩, ⟨0, by norm_num [singleVisitOptions]⟩,
      ⟨0, by norm_num [singleVisitOptions]⟩⟩
  · rw [htotal]
    exact not_isInteger_five_quarters
  · intro hall
    have hmem : ∀ c ∈ (calculateGuestAdmissionSavings sampleConfig singleVisitOptions).breakdown.map
        BreakdownLine.cost, IsInteger c := by
      intro c hc
      obtain ⟨l, hl, rfl⟩ := List.mem_map.mp hc
      exact hall l hl
    rw [hcosts] at hmem
    have h := (hmem (-(5 / 4)) (by simp)).neg
    rw [neg_neg] at h
    exact not_isInteger_five_quarters h

/-- C10, amended: no rounding is applied; with integer admission prices, an integer
visit cap and integer adult count, child ages and visit counts, the returned total and
every breakdown cost are integer multiples of one quarter. -/
theorem calculateGuestAdmissionSavings_quarters (cfg : PricingConfig) (o : GuestOptions)
    (hp : IntegerPrices cfg) (hmax : IsInteger cfg.Constraints.MAX_VISITS_PER_LOCATION)
    (ho : IntegerCounts o) :
    IsInteger (4 * (calculateGuestAdmissionSavings cfg o).total) ∧
      ∀ l ∈ (calculateGuestAdmissionSavings cfg o).breakdown, IsInteger (4 * l.cost) := by
  have hzero : IsInteger (0 : ℚ) := ⟨0, by norm_num⟩
  have hcontrib : ∀ site : Site,
      IsInteger (4 * (if 0 < cappedVisits cfg o site ∧ 0 < totalSaving cfg o site
        then totalSaving cfg o site else 0)) := by
    intro site
    split
    · exact isInteger_four_mul_totalSaving cfg o site hp hmax ho
    · rw [mul_zero]
      exact hzero
  constructor
  · rw [total_eq, mul_add, mul_add]
    exact ((hcontrib .Science).add (hcontrib .DPKH)).add (hcontrib .DPKR)
  · intro l hl
    obtain ⟨site, _, rfl⟩ := mem_breakdown cfg o l hl
    have hcost : (breakdownLine cfg o site).cost = -totalSaving cfg o site := rfl
    rw [hcost, mul_neg]
    exact (isInteger_four_mul_totalSaving cfg o site hp hmax ho).neg

/-- Witness of the amended C10 on the sample data. -/
theorem calculateGuestAdmissionSavings_quarters_witness :
    IntegerPrices sampleConfig ∧ IsInteger sampleConfig.Constraints.MAX_VISITS_PER_LOCATION ∧
      IntegerCounts sampleOptions ∧
      IsInteger (4 * (calculateGuestAdmissionSavings sampleConfig sampleOptions).total) ∧
      ∀ l ∈ (calculateGuestAdmissionSavings sampleConfig sampleOptions).breakdown,
        IsInteger (4 * l.cost) :=
  have hp : IntegerPrices sampleConfig :=
    ⟨⟨5, by norm_num [sampleConfig]⟩, ⟨3, by norm_num [sampleConfig]⟩,
      ⟨4, by norm_num [sampleConfig]⟩, ⟨4, by norm_num [sampleConfig]⟩,
      ⟨8, by norm_num [sampleConfig]⟩, ⟨8, by norm_num [sampleConfig]⟩,
      ⟨4, by norm_num [sampleConfig]⟩, ⟨4, by norm_num [sampleConfig]⟩⟩
  have hmax : IsInteger sampleConfig.Constraints.MAX_VISITS_PER_LOCATION :=
    ⟨10, by norm_num [sampleConfig]⟩
  have ho : IntegerCounts sampleOptions :=
    ⟨⟨2, by norm_num [sampleOptions]⟩,
      by
        intro age hage
        simp only [sampleOptions, List.mem_cons, List.mem_singleton, List.mem_nil_iff,
          or_false] at hage
        rcases hage with rfl | rfl
        · exact ⟨5, by norm_num⟩
        · exact ⟨1, by norm_num⟩,
      ⟨4, by norm_num [sampleOptions]⟩, ⟨2, by norm_num [sampleOptions]⟩,
      ⟨1, by norm_num [sampleOptions]⟩⟩
  ⟨hp, hmax, ho, calculateGuestAdmissionSavings_quarters sampleConfig sampleOptions hp hmax ho⟩

/-! ## Properties of the Welcome Program pricing -/

/-- In the scope of the module the parking cost is 0 without parking, and its
computation throws with parking. -/
theorem welcomeParkingCost_moduleScope (a : WelcomeArgs) :
    welcomeParkingCost moduleScope a =
      if a.includeParking then .error (.ReferenceError "AdmissionCostCalculator") else .ok 0 := by
  cases h : a.includeParking <;> simp [welcomeParkingCost, moduleScope, resolveCalculator, h]

/-- In the scope of the module every call in membership mode throws. -/
theorem welcome_membership_throws (fp : Arithmetic) (cfg : PricingConfig) (o : WelcomeOptions)
    (htype : (destructure o).type = "membership") :
    calculateWelcomeProgramPricing fp cfg moduleScope o =
      .error (.ReferenceError "AdmissionCostCalculator") := by
  cases h : (destructure o).includeParking <;>
    simp [calculateWelcomeProgramPricing, welcomeParkingCost, moduleScope, resolveCalculator, h,
      htype]

/-- In the scope of the module every call with parking throws, in either mode. -/
theorem welcome_parking_throws (fp : Arithmetic) (cfg : PricingConfig) (o : WelcomeOptions)
    (hparking : (destructure o).includeParking = true) :
    calculateWelcomeProgramPricing fp cfg moduleScope o =
      .error (.ReferenceError "AdmissionCostCalculator") := by
  simp [calculateWelcomeProgramPricing, welcomeParkingCost, moduleScope, resolveCalculator,
    hparking]

/-- A call in single-visit mode without parking returns the record of the single-visit
branch, in every scope. -/
theorem welcome_admission_returns (fp : Arithmetic) (cfg : PricingConfig)
    (scope : Option AdmissionCostCalculator) (o : WelcomeOptions)
    (htype : (destructure o).type ≠ "membership")
    (hparking : (destructure o).includeParking = false) :
    calculateWelcomeProgramPricing fp cfg scope o =
      .ok (.singleVisit (welcomeAdmission cfg (destructure o))) := by
  simp [calculateWelcomeProgramPricing, welcomeParkingCost, hparking, htype]

/-- A returned record is the record of the branch of its mode; a membership record
takes a binding of the name `AdmissionCostCalculator`, whose function
`calculateRegularAdmissionCost` has been applied to `regularAdmissionOptions`. -/
theorem welcome_returns_cases (fp : Arithmetic) (cfg : PricingConfig)
    (scope : Option AdmissionCostCalculator) (o : WelcomeOptions) (result : WelcomePricing)
    (hreturn : calculateWelcomeProgramPricing fp cfg scope o = .ok result) :
    ((destructure o).type = "membership" ∧
        ∃ (calculator : AdmissionCostCalculator) (parkingCost : ℚ),
          scope = some calculator ∧
            result = .membership (welcomeMembership fp cfg (destructure o) parkingCost
              (calculator.calculateRegularAdmissionCost
                (regularAdmissionOptions (destructure o))))) ∨
      ((destructure o).type ≠ "membership" ∧
        result = .singleVisit (welcomeAdmission cfg (destructure o))) := by
  unfold calculateWelcomeProgramPricing at hreturn
  cases hp : welcomeParkingCost scope (destructure o) with
  | error e => simp [hp] at hreturn
  | ok parkingCost =>
    by_cases htype : (destructure o).type = "membership"
    · cases scope with
      | none => simp [hp, htype, resolveCalculator] at hreturn
      | some calculator =>
        simp only [hp, htype, if_true, resolveCalculator] at hreturn
        exact Or.inl ⟨htype, calculator, parkingCost, rfl, (Except.ok.inj hreturn).symm⟩
    · simp only [hp, htype, if_false] at hreturn
      exact Or.inr ⟨htype, (Except.ok.inj hreturn).symm⟩

/-- C11: the call `calculateWelcomeProgramPricing({type: "membership", location:
"Science", scienceVisits: 1, includeParking: false})` returns no record, hence no
`totalPrice`: for every configuration it throws the `ReferenceError` of the name
`AdmissionCostCalculator`, as does every call in membership mode. -/
theorem welcome_membership_total_throws (fp : Arithmetic) (cfg : PricingConfig) :
    calculateWelcomeProgramPricing fp cfg moduleScope membershipAtScience =
        .error (.ReferenceError "AdmissionCostCalculator") ∧
      ∀ o : WelcomeOptions, (destructure o).type = "membership" →
        calculateWelcomeProgramPricing fp cfg moduleScope o =
          .error (.ReferenceError "AdmissionCostCalculator") :=
  ⟨welcome_membership_throws fp cfg membershipAtScience rfl,
    fun o htype => welcome_membership_throws fp cfg o htype⟩

/-- C12, counterexample: for one adult and one child with one visit to Science, in
membership mode without parking, the call returns no record, hence reports no
`regularAdmissionCost`; and the options it has built for `calculateRegularAdmissionCost`
give the child the age 5, which is not the age of a child of 1. -/
theorem welcome_regular_cost_ignores_ages :
    (destructure youngChildOptions).type = "membership" ∧
      (destructure youngChildOptions).childrenCount = 1 ∧
      calculateWelcomeProgramPricing exactArithmetic sampleConfig moduleScope youngChildOptions =
        .error (.ReferenceError "AdmissionCostCalculator") ∧
      (regularAdmissionOptions (destructure youngChildOptions)).childAges = [5] ∧
      (regularAdmissionOptions (destructure youngChildOptions)).childAges ≠ [1] := by
  refine ⟨rfl, rfl, welcome_membership_throws _ _ _ rfl, rfl, ?_⟩
  show ([5] : List ℚ) ≠ [1]
  intro h
  have h5 : (5 : ℚ) = 1 := List.head_eq_of_cons_eq h
  norm_num at h5

/-- C12, amended: in membership mode the options built for
`calculateRegularAdmissionCost` carry the adult count, the children count, the three
visit counts and `includeParking` of the call, and `childrenCount` child ages that are
all 5; whenever the call returns a record, its `regularAdmissionCost` is what the
calculator bound to the name `AdmissionCostCalculator` returns for these options. -/
theorem welcome_regular_cost (fp : Arithmetic) (cfg : PricingConfig)
    (scope : Option AdmissionCostCalculator) (o : WelcomeOptions)
    (htype : (destructure o).type = "membership") :
    regularAdmissionOptions (destructure o) =
        { adultCount := (destructure o).adultCount
          childrenCount := (destructure o).childrenCount
          childAges := List.replicate (destructure o).childrenCount 5
          scienceVisits := (destructure o).scienceVisits
          dpkhVisits := (destructure o).dpkhVisits
          dpkrVisits := (destructure o).dpkrVisits
          includeParking := (destructure o).includeParking } ∧
      ∀ result : WelcomePricing,
        calculateWelcomeProgramPricing fp cfg scope o = .ok result →
          ∃ (calculator : AdmissionCostCalculator) (r : WelcomeMembership),
            scope = some calculator ∧ result = .membership r ∧
              r.regularAdmissionCost =
                calculator.calculateRegularAdmissionCost
                  (regularAdmissionOptions (destructure o)) := by
  refine ⟨rfl, fun result hreturn => ?_⟩
  rcases welcome_returns_cases fp cfg scope o result hreturn with
    ⟨_, calculator, parkingCost, hscope, hresult⟩ | ⟨hne, _⟩
  · exact ⟨calculator, _, hscope, hresult, rfl⟩
  · exact absurd htype hne

/-- Witness of the amended C12: the membership of one adult and one child on the sample
configuration, in the scope of the module. -/
theorem welcome_regular_cost_witness :
    (destructure youngChildOptions).type = "membership" ∧
      (regularAdmissionOptions (destructure youngChildOptions)).childAges =
        List.replicate 1 5 :=
  ⟨rfl,
    congrArg RegularAdmissionOptions.childAges
      (welcome_regular_cost exactArithmetic sampleConfig moduleScope youngChildOptions rfl).1⟩

/-- C13: on the sample membership (anchored at DPKH, with parking) the call returns no
record, hence neither `bestMembershipSavings` nor `savingsPercentage`: for every
configuration it throws the `ReferenceError` of the name `AdmissionCostCalculator`
while computing the parking cost. -/
theorem welcome_savings_throws (fp : Arithmetic) (cfg : PricingConfig) :
    (destructure sampleWelcomeOptions).type = "membership" ∧
      (destructure sampleWelcomeOptions).includeParking = true ∧
      welcomeParkingCost moduleScope (destructure sampleWelcomeOptions) =
        .error (.ReferenceError "AdmissionCostCalculator") ∧
      calculateWelcomeProgramPricing fp cfg moduleScope sampleWelcomeOptions =
        .error (.ReferenceError "AdmissionCostCalculator") :=
  ⟨rfl, rfl, rfl, welcome_parking_throws fp cfg sampleWelcomeOptions rfl⟩

/-- C14: the call `calculateWelcomeProgramPricing({})`, a membership with no visits and
hence a baseline of 0, returns no record and no `savingsPercentage`: for every
configuration it throws the `ReferenceError` of the name `AdmissionCostCalculator`. -/
theorem welcome_percentage_throws (fp : Arithmetic) (cfg : PricingConfig) :
    (destructure defaultWelcomeOptions).type = "membership" ∧
      calculateWelcomeProgramPricing fp cfg moduleScope defaultWelcomeOptions =
        .error (.ReferenceError "AdmissionCostCalculator") :=
  ⟨rfl, welcome_membership_throws fp cfg defaultWelcomeOptions rfl⟩

/-- C15: the single visit at Science with parking returns no record: for every
configuration the call throws the `ReferenceError` of the name
`AdmissionCostCalculator`, as does every call with parking; without parking a call in
single-visit mode returns a record whose admission cost is `min(people,
maxSingleVisitGroup) * singleVisitPrice`, whose parking cost is 0 and whose total price
is their sum, the same record for all visit counts. -/
theorem welcome_single_visit_throws (fp : Arithmetic) (cfg : PricingConfig) :
    (destructure sampleSingleVisit).type ≠ "membership" ∧
      (destructure sampleSingleVisit).location = "Science" ∧
      calculateWelcomeProgramPricing fp cfg moduleScope sampleSingleVisit =
        .error (.ReferenceError "AdmissionCostCalculator") ∧
      (∀ o : WelcomeOptions, (destructure o).includeParking = true →
        calculateWelcomeProgramPricing fp cfg moduleScope o =
          .error (.ReferenceError "AdmissionCostCalculator")) ∧
      (∀ o : WelcomeOptions, (destructure o).type ≠ "membership" →
        (destructure o).includeParking = false →
        ∃ r : WelcomeAdmission,
          (∀ s h k : Option ℚ,
            calculateWelcomeProgramPricing fp cfg moduleScope
                { o with scienceVisits := s, dpkhVisits := h, dpkrVisits := k } =
              .ok (.singleVisit r)) ∧
            r.admissionCost =
              min (destructure o).people cfg.Discounts.welcomeProgram.maxSingleVisitGroup *
                cfg.Discounts.welcomeProgram.singleVisitPrice ∧
            r.parkingCost = 0 ∧ r.totalPrice = r.admissionCost + r.parkingCost) := by
  refine ⟨by decide, rfl, welcome_parking_throws fp cfg sampleSingleVisit rfl,
    fun o h => welcome_parking_throws fp cfg o h, fun o htype hparking => ?_⟩
  refine ⟨welcomeAdmission cfg (destructure o), fun s h k => ?_, rfl, ?_, rfl⟩
  · exact welcome_admission_returns fp cfg moduleScope
      { o with scienceVisits := s, dpkhVisits := h, dpkrVisits := k } htype hparking
  · simp [welcomeAdmission, flatParking, hparking]

/-- C16: the membership anchored at DPKH with no visit at any location returns no
record, hence no `totalPrice`, with parking or without: for every configuration the call
throws the `ReferenceError` of the name `AdmissionCostCalculator`. -/
theorem welcome_membership_no_visits_throws (fp : Arithmetic) (cfg : PricingConfig) :
    (destructure noVisitsOptions).scienceVisits = 0 ∧
      (destructure noVisitsOptions).dpkhVisits = 0 ∧
      (destructure noVisitsOptions).dpkrVisits = 0 ∧
      calculateWelcomeProgramPricing fp cfg moduleScope noVisitsOptions =
        .error (.ReferenceError "AdmissionCostCalculator") ∧
      calculateWelcomeProgramPricing fp cfg moduleScope
          { noVisitsOptions with includeParking := some true } =
        .error (.ReferenceError "AdmissionCostCalculator") :=
  ⟨rfl, rfl, rfl, welcome_membership_throws fp cfg noVisitsOptions rfl,
    welcome_membership_throws fp cfg _ rfl⟩

/-- C17: on the sample configuration, whose Welcome prices and parking rates are
non-negative, the sample membership without parking, whose people and visit counts are
non-negative, returns no record and so no price or cost field: the call throws the
`ReferenceError` of the name `AdmissionCostCalculator`. -/
theorem welcome_fields_throws :
    NonNegativeWelcomePrices sampleConfig ∧
      NonNegativeWelcomeArgs (destructure membershipWithoutParking) ∧
      calculateWelcomeProgramPricing exactArithmetic sampleConfig moduleScope
          membershipWithoutParking =
        .error (.ReferenceError "AdmissionCostCalculator") := by
  refine ⟨?_, ?_, welcome_membership_throws _ _ _ rfl⟩
  · norm_num [NonNegativeWelcomePrices, sampleConfig]
  · norm_num [NonNegativeWelcomeArgs, destructure, membershipWithoutParking,
      sampleWelcomeOptions]

/-- A property of the module's tables: a key that is no name of `Object.prototype` is
read as an own property or as `undefined`. -/
theorem getProperty_of_not_inherited {α : Type} (object : List (String × α)) (key : String)
    (hname : key ∉ objectPrototypeNames) :
    getProperty object key =
      match object.lookup key with
      | some value => .own value
      | none => .missing := by
  unfold getProperty
  cases object.lookup key with
  | some value => rfl
  | none =>
    have h : objectPrototypeNames.contains key = false := by
      cases hc : objectPrototypeNames.contains key
      · rfl
      · exact absurd (List.mem_of_elem_eq_true hc) hname
    simp only [h]
    rfl

/-- The key `"Science"` is read as an own property or as `undefined`. -/
theorem getProperty_Science (links : List (String × String)) :
    (getProperty links "Science").toValue = (links.lookup "Science").map TableValue.string := by
  rw [getProperty_of_not_inherited links "Science" (by decide)]
  cases links.lookup "Science" <;> rfl

/-- A non-empty own entry of a link table is the link. -/
theorem resolveLink_of_entry (links : List (String × String)) (location link : String)
    (hentry : links.lookup location = some link) (hne : link ≠ "") :
    resolveLink links location = some (.string link) := by
  simp [resolveLink, getProperty, hentry, jsOr, hne]

/-- For a location that is no name of `Object.prototype` and has no entry or an empty
one, the link is the Science entry. -/
theorem resolveLink_of_no_entry (links : List (String × String)) (location : String)
    (hname : location ∉ objectPrototypeNames)
    (hentry : links.lookup location = none ∨ links.lookup location = some "") :
    resolveLink links location = (links.lookup "Science").map TableValue.string := by
  unfold resolveLink
  rw [getProperty_Science, getProperty_of_not_inherited links location hname]
  rcases hentry with h | h <;> simp [h, jsOr]

/-- The links of a returned record are the resolved links of the two tables. -/
theorem welcome_links_eq (fp : Arithmetic) (cfg : PricingConfig)
    (scope : Option AdmissionCostCalculator) (o : WelcomeOptions) (result : WelcomePricing)
    (hreturn : calculateWelcomeProgramPricing fp cfg scope o = .ok result) :
    result.purchaseLink =
        resolveLink cfg.Discounts.welcomeProgram.purchaseLinks (destructure o).location ∧
      result.infoLink =
        resolveLink cfg.Discounts.welcomeProgram.infoLinks (destructure o).location := by
  rcases welcome_returns_cases fp cfg scope o result hreturn with
    ⟨_, calculator, parkingCost, _, hresult⟩ | ⟨_, hresult⟩ <;>
  · subst hresult
    exact ⟨rfl, rfl⟩

/-- C18, counterexample: on the sample configuration a single visit without parking at
DPKR, whose configured links are empty strings, returns the Science links and not the
configured ones; and at the location code `"constructor"`, which has no entry in the
link tables, it returns the built-in that `Object.prototype` holds under that name and
not the Science links. -/
theorem welcome_links_not_configured :
    sampleConfig.Discounts.welcomeProgram.purchaseLinks.lookup "DPKR" = some "" ∧
      (calculateWelcomeProgramPricing exactArithmetic sampleConfig moduleScope
          rockinghamSingleVisit).map WelcomePricing.purchaseLink =
        .ok (some (.string "buy-science")) ∧
      sampleConfig.Discounts.welcomeProgram.purchaseLinks.lookup "constructor" = none ∧
      sampleConfig.Discounts.welcomeProgram.purchaseLinks.lookup "Science" =
        some "buy-science" ∧
      (calculateWelcomeProgramPricing exactArithmetic sampleConfig moduleScope
          constructorSingleVisit).map WelcomePricing.purchaseLink =
        .ok (some (.builtin "constructor")) ∧
      (calculateWelcomeProgramPricing exactArithmetic sampleConfig moduleScope
          constructorSingleVisit).map WelcomePricing.infoLink =
        .ok (some (.builtin "constructor")) := by
  have h1 : calculateWelcomeProgramPricing exactArithmetic sampleConfig moduleScope
      rockinghamSingleVisit =
        .ok (.singleVisit (welcomeAdmission sampleConfig (destructure rockinghamSingleVisit))) :=
    welcome_admission_returns _ _ _ _ (by decide) rfl
  have h2 : calculateWelcomeProgramPricing exactArithmetic sampleConfig moduleScope
      constructorSingleVisit =
        .ok (.singleVisit (welcomeAdmission sampleConfig (destructure constructorSingleVisit))) :=
    welcome_admission_returns _ _ _ _ (by decide) rfl
  refine ⟨by decide, ?_, by decide, by decide, ?_, ?_⟩
  · rw [h1]
    exact congrArg Except.ok (by decide)
  · rw [h2]
    exact congrArg Except.ok (by decide)
  · rw [h2]
    exact congrArg Except.ok (by decide)

/-- C18, amended: whenever the call returns a record, in either mode, and the location
is no name of a property inherited from `Object.prototype`, `purchaseLink` and
`infoLink` are the links configured for the location when its entry is a non-empty
string, and the Science links when the entry is missing or the empty string; when the
Science links are non-empty strings, the links of the record are non-empty strings. -/
theorem welcome_links (fp : Arithmetic) (cfg : PricingConfig)
    (scope : Option AdmissionCostCalculator) (o : WelcomeOptions) (result : WelcomePricing)
    (hreturn : calculateWelcomeProgramPricing fp cfg scope o = .ok result)
    (hname : (destructure o).location ∉ objectPrototypeNames) :
    (∀ link : String,
        cfg.Discounts.welcomeProgram.purchaseLinks.lookup (destructure o).location = some link →
          link ≠ "" → result.purchaseLink = some (.string link)) ∧
      ((cfg.Discounts.welcomeProgram.purchaseLinks.lookup (destructure o).location = none ∨
          cfg.Discounts.welcomeProgram.purchaseLinks.lookup (destructure o).location =
            some "") →
        result.purchaseLink =
          (cfg.Discounts.welcomeProgram.purchaseLinks.lookup "Science").map
            TableValue.string) ∧
      (∀ link : String,
        cfg.Discounts.welcomeProgram.infoLinks.lookup (destructure o).location = some link →
          link ≠ "" → result.infoLink = some (.string link)) ∧
      ((cfg.Discounts.welcomeProgram.infoLinks.lookup (destructure o).location = none ∨
          cfg.Discounts.welcomeProgram.infoLinks.lookup (destructure o).location = some "") →
        result.infoLink =
          (cfg.Discounts.welcomeProgram.infoLinks.lookup "Science").map TableValue.string) ∧
      (∀ science : String,
        cfg.Discounts.welcomeProgram.purchaseLinks.lookup "Science" = some science →
          science ≠ "" →
          ∃ link : String, result.purchaseLink = some (.string link) ∧ link ≠ "") ∧
      (∀ science : String,
        cfg.Discounts.welcomeProgram.infoLinks.lookup "Science" = some science →
          science ≠ "" →
          ∃ link : String, result.infoLink = some (.string link) ∧ link ≠ "") := by
  obtain ⟨hp, hi⟩ := welcome_links_eq fp cfg scope o result hreturn
  rw [hp, hi]
  have never_missing : ∀ (links : List (String × String)) (science : String),
      links.lookup "Science" = some science → science ≠ "" →
        ∃ link : String, resolveLink links (destructure o).location = some (.string link) ∧
          link ≠ "" := by
    intro links science hs hne
    cases hl : links.lookup (destructure o).location with
    | none =>
      refine ⟨science, ?_, hne⟩
      rw [resolveLink_of_no_entry links _ hname (Or.inl hl), hs]
      rfl
    | some link =>
      by_cases hempty : link = ""
      · refine ⟨science, ?_, hne⟩
        rw [resolveLink_of_no_entry links _ hname (Or.inr (by rw [hl, hempty])), hs]
        rfl
      · exact ⟨link, resolveLink_of_entry _ _ _ hl hempty, hempty⟩
  exact ⟨fun link h hne => resolveLink_of_entry _ _ _ h hne,
    fun h => resolveLink_of_no_entry _ _ hname h,
    fun link h hne => resolveLink_of_entry _ _ _ h hne,
    fun h => resolveLink_of_no_entry _ _ hname h,
    fun science hs hne => never_missing _ science hs hne,
    fun science hs hne => never_missing _ science hs hne⟩

/-- Witness of the amended C18: a single visit without parking at DPKH on the sample
configuration, in the scope of the module, returns its record with the links configured
for DPKH. -/
theorem welcome_links_witness :
    calculateWelcomeProgramPricing exactArithmetic sampleConfig moduleScope
          huntersvilleSingleVisit =
        .ok (.singleVisit (welcomeAdmission sampleConfig (destructure huntersvilleSingleVisit))) ∧
      (destructure huntersvilleSingleVisit).location ∉ objectPrototypeNames ∧
      (WelcomePricing.singleVisit
          (welcomeAdmission sampleConfig (destructure huntersvilleSingleVisit))).purchaseLink =
        some (.string "buy-dpkh") :=
  ⟨welcome_admission_returns _ _ _ _ (by decide) rfl, by decide,
    (welcome_links exactArithmetic sampleConfig moduleScope huntersvilleSingleVisit _
      (welcome_admission_returns _ _ _ _ (by decide) rfl) (by decide)).1 "buy-dpkh" (by decide)
      (by decide)⟩

/-! ## Properties of the guest admission price -/

/-- `Math.round` leaves an integer unchanged. -/
theorem mathRound_intCast (n : ℤ) : mathRound (n : ℚ) = (n : ℚ) := by
  unfold mathRound
  have h : ⌊(n : ℚ) + 1 / 2⌋ = n := by
    rw [Int.floor_eq_iff]
    constructor <;> norm_num
  rw [h]

/-- Twenty-five halves rounds to thirteen. -/
theorem mathRound_twenty_five_halves : mathRound (25 / 2 * (1 - 0)) = 13 := by
  norm_num [mathRound, Int.floor_eq_iff]

/-- The guest admission price by cases on the entry of the discount map. -/
theorem calculateGuestAdmission_cases (fp : Arithmetic) (cfg : PricingConfig)
    (regularPrice : ℚ) (memberLocation visitLocation : String) :
    calculateGuestAdmission fp cfg regularPrice memberLocation visitLocation =
      match guestDiscountEntry cfg memberLocation visitLocation with
      | .missing => some regularPrice
      | .inherited _ => none
      | .own discountRate =>
        if discountRate = 0 then some regularPrice
        else some (mathRound (fp.mul regularPrice (fp.sub 1 discountRate))) := by
  simp only [calculateGuestAdmission, guestDiscountEntry]
  cases getProperty cfg.GuestDiscounts.discountMap memberLocation with
  | missing => rfl
  | inherited name => rfl
  | own row => cases getProperty row visitLocation <;> rfl

/-- A read finds an own property exactly when the list of own properties has the key. -/
theorem getProperty_eq_own {α : Type} (object : List (String × α)) (key : String) (value : α) :
    getProperty object key = .own value ↔ object.lookup key = some value := by
  unfold getProperty
  cases h : object.lookup key with
  | some v => simp
  | none => cases hc : objectPrototypeNames.contains key <;> simp

/-- A read that finds nothing has no own property of the key. -/
theorem lookup_of_getProperty_missing {α : Type} (object : List (String × α)) (key : String)
    (hmissing : getProperty object key = .missing) : object.lookup key = none := by
  unfold getProperty at hmissing
  cases h : object.lookup key with
  | some v => simp [h] at hmissing
  | none => rfl

/-- An entry that is missing leaves the rate of the specification at 0, and a rate that
the map holds is the rate of the specification. -/
theorem specGuestDiscountRate_of_entry (cfg : PricingConfig)
    (memberLocation visitLocation : String) :
    (guestDiscountEntry cfg memberLocation visitLocation = .missing →
        specGuestDiscountRate cfg memberLocation visitLocation = 0) ∧
      ∀ rate : ℚ, guestDiscountEntry cfg memberLocation visitLocation = .own rate →
        specGuestDiscountRate cfg memberLocation visitLocation = rate := by
  unfold guestDiscountEntry specGuestDiscountRate
  cases hrow : getProperty cfg.GuestDiscounts.discountMap memberLocation with
  | missing =>
    rw [lookup_of_getProperty_missing _ _ hrow]
    exact ⟨fun _ => rfl, fun rate h => (by cases h)⟩
  | inherited name => exact ⟨fun h => (by cases h), fun rate h => (by cases h)⟩
  | own row =>
    rw [(getProperty_eq_own _ _ row).mp hrow]
    refine ⟨fun h => ?_, fun rate h => ?_⟩
    · have h2 : row.lookup visitLocation = none := lookup_of_getProperty_missing _ _ h
      simp [h2]
    · have h2 : row.lookup visitLocation = some rate := (getProperty_eq_own _ _ rate).mp h
      simp [h2]

/-- C19, counterexample: the sample configuration has no entry for a DPKR member, so
the rate of the specification for a DPKR member visiting Science is 0; for the regular
price 12.5 the function returns 12.5 as it is, while `round(12.5 * (1 - 0))` is 13. -/
theorem calculateGuestAdmission_not_rounded :
    (0 : ℚ) ≤ 25 / 2 ∧
      guestDiscountEntry sampleConfig "DPKR" "Science" = .missing ∧
      specGuestDiscountRate sampleConfig "DPKR" "Science" = 0 ∧
      calculateGuestAdmission exactArithmetic sampleConfig (25 / 2) "DPKR" "Science" =
        some (25 / 2) ∧
      mathRound (25 / 2 * (1 - specGuestDiscountRate sampleConfig "DPKR" "Science")) = 13 ∧
      calculateGuestAdmission exactArithmetic sampleConfig (25 / 2) "DPKR" "Science" ≠
        some (mathRound (25 / 2 * (1 - specGuestDiscountRate sampleConfig "DPKR" "Science"))) := by
  have hentry : guestDiscountEntry sampleConfig "DPKR" "Science" = .missing := by decide
  have hrate : specGuestDiscountRate sampleConfig "DPKR" "Science" = 0 :=
    (specGuestDiscountRate_of_entry sampleConfig "DPKR" "Science").1 hentry
  have h1 : calculateGuestAdmission exactArithmetic sampleConfig (25 / 2) "DPKR" "Science" =
      some (25 / 2) := by
    rw [calculateGuestAdmission_cases, hentry]
  refine ⟨by norm_num, hentry, hrate, h1, ?_, ?_⟩
  · rw [hrate, mathRound_twenty_five_halves]
  · rw [h1, hrate, mathRound_twenty_five_halves]
    norm_num

/-- C19, amended: `calculateGuestAdmission` returns the regular price as it is, not
rounded, when the discount map has no entry for the pair of locations, and
`Math.round(regularPrice * (1 - r))`, subtraction and product being those of the engine,
when it holds a non-zero rate `r`, which is then the `guestDiscountRate` of the
specification; for every integer regular price the result for a missing entry is
`round(regularPrice * (1 - guestDiscountRate))`, `guestDiscountRate` being 0. -/
theorem calculateGuestAdmission_spec (fp : Arithmetic) (cfg : PricingConfig)
    (regularPrice : ℚ) (memberLocation visitLocation : String) :
    (guestDiscountEntry cfg memberLocation visitLocation = .missing →
        calculateGuestAdmission fp cfg regularPrice memberLocation visitLocation =
          some regularPrice) ∧
      (∀ rate : ℚ, guestDiscountEntry cfg memberLocation visitLocation = .own rate →
        rate ≠ 0 →
          calculateGuestAdmission fp cfg regularPrice memberLocation visitLocation =
              some (mathRound (fp.mul regularPrice (fp.sub 1 rate))) ∧
            specGuestDiscountRate cfg memberLocation visitLocation = rate) ∧
      (∀ n : ℤ, regularPrice = (n : ℚ) →
        guestDiscountEntry cfg memberLocation visitLocation = .missing →
          specGuestDiscountRate cfg memberLocation visitLocation = 0 ∧
            calculateGuestAdmission fp cfg regularPrice memberLocation visitLocation =
              some (mathRound
                (regularPrice *
                  (1 - specGuestDiscountRate cfg memberLocation visitLocation)))) := by
  have hcases := calculateGuestAdmission_cases fp cfg regularPrice memberLocation visitLocation
  obtain ⟨hzero, hrate⟩ := specGuestDiscountRate_of_entry cfg memberLocation visitLocation
  refine ⟨fun h => by rw [hcases, h], fun rate h hne => ⟨by rw [hcases, h]; simp [hne],
    hrate rate h⟩, fun n hn h => ⟨hzero h, ?_⟩⟩
  rw [hcases, h, hzero h, hn]
  simp [mathRound_intCast]

/-! ## Properties of the primary location -/

/-- The primary location by comparisons: Science when its count is at least both
others, else DPKH when its count is at least that of DPKR, else DPKR; together with the
fact that the count of the returned location is the greatest. -/
theorem determinePrimaryLocation_cases (scienceVisits dpkhVisits dpkrVisits : ℚ) :
    determinePrimaryLocation scienceVisits dpkhVisits dpkrVisits =
        (if scienceVisits ≥ dpkhVisits ∧ scienceVisits ≥ dpkrVisits then Site.Science
          else if dpkhVisits > scienceVisits ∧ dpkhVisits ≥ dpkrVisits then Site.DPKH
          else Site.DPKR) ∧
      (if scienceVisits ≥ dpkhVisits ∧ scienceVisits ≥ dpkrVisits then scienceVisits
          else if dpkhVisits > scienceVisits ∧ dpkhVisits ≥ dpkrVisits then dpkhVisits
          else dpkrVisits) = max scienceVisits (max dpkhVisits dpkrVisits) := by
  have hS : scienceVisits = max scienceVisits (max dpkhVisits dpkrVisits) ↔
      scienceVisits ≥ dpkhVisits ∧ scienceVisits ≥ dpkrVisits := by
    constructor
    · intro h
      have h1 : max dpkhVisits dpkrVisits ≤ scienceVisits := by
        rw [h]
        exact le_max_right _ _
      exact ⟨le_trans (le_max_left _ _) h1, le_trans (le_max_right _ _) h1⟩
    · rintro ⟨h1, h2⟩
      exact (max_eq_left (max_le h1 h2)).symm
  have hH : ¬ (scienceVisits ≥ dpkhVisits ∧ scienceVisits ≥ dpkrVisits) →
      (dpkhVisits = max scienceVisits (max dpkhVisits dpkrVisits) ↔
        dpkhVisits > scienceVisits ∧ dpkhVisits ≥ dpkrVisits) := by
    intro hnot
    constructor
    · intro h
      have h1 : scienceVisits ≤ dpkhVisits := by
        rw [h]
        exact le_max_left _ _
      have h2 : dpkrVisits ≤ dpkhVisits := by
        rw [h]
        exact le_trans (le_max_right _ _) (le_max_right _ _)
      refine ⟨lt_of_le_of_ne h1 ?_, h2⟩
      intro heq
      exact hnot ⟨heq ▸ le_refl _, heq ▸ h2⟩
    · rintro ⟨h1, h2⟩
      rw [max_eq_left h2, max_eq_right h1.le]
  have hlast : ¬ (scienceVisits ≥ dpkhVisits ∧ scienceVisits ≥ dpkrVisits) →
      ¬ (dpkhVisits > scienceVisits ∧ dpkhVisits ≥ dpkrVisits) →
      dpkrVisits = max scienceVisits (max dpkhVisits dpkrVisits) := by
    intro h1 h2
    have hr : dpkhVisits ≤ dpkrVisits := by
      by_contra hc
      have hc2 : dpkrVisits < dpkhVisits := not_le.mp hc
      by_cases hsh : scienceVisits ≥ dpkhVisits
      · exact h1 ⟨hsh, le_trans hc2.le hsh⟩
      · exact h2 ⟨not_le.mp hsh, hc2.le⟩
    have hs : scienceVisits ≤ dpkrVisits := by
      by_contra hc
      have hc2 : dpkrVisits < scienceVisits := not_le.mp hc
      by_cases hsh : scienceVisits ≥ dpkhVisits
      · exact h1 ⟨hsh, hc2.le⟩
      · exact h2 ⟨not_le.mp hsh, le_trans hc2.le (not_le.mp hsh).le⟩
    rw [max_eq_right hr, max_eq_right hs]
  have hdef : determinePrimaryLocation scienceVisits dpkhVisits dpkrVisits =
      (if scienceVisits = max scienceVisits (max dpkhVisits dpkrVisits) then Site.Science
        else if dpkhVisits = max scienceVisits (max dpkhVisits dpkrVisits) then Site.DPKH
        else Site.DPKR) := rfl
  rw [hdef]
  by_cases c1 : scienceVisits ≥ dpkhVisits ∧ scienceVisits ≥ dpkrVisits
  · rw [if_pos (hS.mpr c1), if_pos c1, if_pos c1]
    exact ⟨rfl, hS.mpr c1⟩
  · rw [if_neg (mt hS.mp c1), if_neg c1, if_neg c1]
    by_cases c2 : dpkhVisits > scienceVisits ∧ dpkhVisits ≥ dpkrVisits
    · rw [if_pos ((hH c1).mpr c2), if_pos c2, if_pos c2]
      exact ⟨rfl, (hH c1).mpr c2⟩
    · rw [if_neg (mt (hH c1).mp c2), if_neg c2, if_neg c2]
      exact ⟨rfl, hlast c1 c2⟩

/-- C20: `determinePrimaryLocation` returns Science exactly when the Science visits are
at least both other counts, DPKH exactly when the DPKH visits exceed the Science visits
and are at least the DPKR visits, and DPKR in every other case; the returned location
has the greatest visit count; and (3,3,3) gives Science, (0,5,5) gives DPKH, (0,0,0)
gives Science. -/
theorem determinePrimaryLocation_spec (scienceVisits dpkhVisits dpkrVisits : ℚ) :
    (determinePrimaryLocation scienceVisits dpkhVisits dpkrVisits = Site.Science ↔
        scienceVisits ≥ dpkhVisits ∧ scienceVisits ≥ dpkrVisits) ∧
      (determinePrimaryLocation scienceVisits dpkhVisits dpkrVisits = Site.DPKH ↔
        dpkhVisits > scienceVisits ∧ dpkhVisits ≥ dpkrVisits) ∧
      (determinePrimaryLocation scienceVisits dpkhVisits dpkrVisits = Site.DPKR ↔
        ¬ (scienceVisits ≥ dpkhVisits ∧ scienceVisits ≥ dpkrVisits) ∧
          ¬ (dpkhVisits > scienceVisits ∧ dpkhVisits ≥ dpkrVisits)) ∧
      (match determinePrimaryLocation scienceVisits dpkhVisits dpkrVisits with
        | Site.Science => scienceVisits
        | Site.DPKH => dpkhVisits
        | Site.DPKR => dpkrVisits) = max scienceVisits (max dpkhVisits dpkrVisits) ∧
      determinePrimaryLocation 3 3 3 = Site.Science ∧
      determinePrimaryLocation 0 5 5 = Site.DPKH ∧
      determinePrimaryLocation 0 0 0 = Site.Science := by
  obtain ⟨hdef, hmax⟩ := determinePrimaryLocation_cases scienceVisits dpkhVisits dpkrVisits
  have h333 : determinePrimaryLocation 3 3 3 = Site.Science := by
    rw [(determinePrimaryLocation_cases 3 3 3).1]
    norm_num
  have h055 : determinePrimaryLocation 0 5 5 = Site.DPKH := by
    rw [(determinePrimaryLocation_cases 0 5 5).1]
    norm_num
  have h000 : determinePrimaryLocation 0 0 0 = Site.Science := by
    rw [(determinePrimaryLocation_cases 0 0 0).1]
    norm_num
  refine ⟨?_, ?_, ?_, ?_, h333, h055, h000⟩
  · rw [hdef]
    by_cases c1 : scienceVisits ≥ dpkhVisits ∧ scienceVisits ≥ dpkrVisits
    · simp [c1]
    · by_cases c2 : dpkhVisits > scienceVisits ∧ dpkhVisits ≥ dpkrVisits <;> simp [c1, c2]
  · rw [hdef]
    by_cases c1 : scienceVisits ≥ dpkhVisits ∧ scienceVisits ≥ dpkrVisits
    · simp only [if_pos c1]
      constructor
      · intro h
        cases h
      · intro c2
        exact absurd c1.1 (not_le.mpr c2.1)
    · by_cases c2 : dpkhVisits > scienceVisits ∧ dpkhVisits ≥ dpkrVisits <;> simp [c1, c2]
  · rw [hdef]
    by_cases c1 : scienceVisits ≥ dpkhVisits ∧ scienceVisits ≥ dpkrVisits
    · simp [c1]
    · by_cases c2 : dpkhVisits > scienceVisits ∧ dpkhVisits ≥ dpkrVisits <;> simp [c1, c2]
  · rw [← hmax, hdef]
    by_cases c1 : scienceVisits ≥ dpkhVisits ∧ scienceVisits ≥ dpkrVisits
    · simp only [if_pos c1]
    · by_cases c2 : dpkhVisits > scienceVisits ∧ dpkhVisits ≥ dpkrVisits
      · simp only [if_neg c1, if_pos c2]
      · simp only [if_neg c1, if_neg c2]

/-! ## Further properties of the guest admission savings -/

/-- The cost of the line of a block is the negated saving of the block. -/
theorem breakdownLine_cost (cfg : PricingConfig) (o : GuestOptions) (site : Site) :
    (breakdownLine cfg o site).cost = -totalSaving cfg o site := rfl

/-- C26: for every input, negative or otherwise invalid numbers included, the returned
total is non-negative, every breakdown line has a negative cost, and the total is the
negated sum of the breakdown costs. -/
theorem calculateGuestAdmissionSavings_signs (cfg : PricingConfig) (o : GuestOptions) :
    0 ≤ (calculateGuestAdmissionSavings cfg o).total ∧
      (∀ l ∈ (calculateGuestAdmissionSavings cfg o).breakdown, l.cost < 0) ∧
      (calculateGuestAdmissionSavings cfg o).total =
        -((calculateGuestAdmissionSavings cfg o).breakdown.map BreakdownLine.cost).sum := by
  refine ⟨?_, ?_, ?_⟩
  · rw [total_eq]
    have h : ∀ site : Site,
        0 ≤ (if 0 < cappedVisits cfg o site ∧ 0 < totalSaving cfg o site
          then totalSaving cfg o site else 0) := by
      intro site
      split
      · next hfire => exact hfire.2.le
      · exact le_refl _
    exact add_nonneg (add_nonneg (h .Science) (h .DPKH)) (h .DPKR)
  · intro l hl
    obtain ⟨site, hfire, rfl⟩ := mem_breakdown cfg o l hl
    rw [breakdownLine_cost]
    linarith [hfire.2]
  · rw [total_eq, breakdown_eq]
    by_cases h1 : 0 < cappedVisits cfg o .Science ∧ 0 < totalSaving cfg o .Science <;>
      by_cases h2 : 0 < cappedVisits cfg o .DPKH ∧ 0 < totalSaving cfg o .DPKH <;>
      by_cases h3 : 0 < cappedVisits cfg o .DPKR ∧ 0 < totalSaving cfg o .DPKR <;>
      simp [h1, h2, h3, breakdownLine_cost] <;> ring

/-- C27: two configurations with the same admission prices and the same
`MAX_VISITS_PER_LOCATION` give the same result on every input, whatever their
guest-discount matrices, their `Discounts` and their other settings. -/
theorem calculateGuestAdmissionSavings_ignores_matrix (cfg₁ cfg₂ : PricingConfig)
    (o : GuestOptions) (hprices : cfg₁.AdmissionPrices = cfg₂.AdmissionPrices)
    (hmax : cfg₁.Constraints.MAX_VISITS_PER_LOCATION =
      cfg₂.Constraints.MAX_VISITS_PER_LOCATION) :
    calculateGuestAdmissionSavings cfg₁ o = calculateGuestAdmissionSavings cfg₂ o := by
  have hcap : ∀ site, cappedVisits cfg₁ o site = cappedVisits cfg₂ o site := by
    intro site
    simp only [cappedVisits, hmax]
  have hkids : ∀ site, eligibleChildren cfg₁ o site = eligibleChildren cfg₂ o site := by
    intro site
    cases site <;> simp only [eligibleChildren, childAgeThreshold, hprices]
  have hadult : ∀ site, regularAdultPrice cfg₁ o site = regularAdultPrice cfg₂ o site := by
    intro site
    cases site <;> simp only [regularAdultPrice, dpkrTier, hprices]
  have hchild : ∀ site, regularChildPrice cfg₁ o site = regularChildPrice cfg₂ o site := by
    intro site
    cases site <;> simp only [regularChildPrice, dpkrTier, hprices]
  have hA : ∀ site, adultSaving cfg₁ o site = adultSaving cfg₂ o site := by
    intro site
    simp only [adultSaving, discountedAdultPrice, hcap, hadult]
  have hC : ∀ site, childSaving cfg₁ o site = childSaving cfg₂ o site := by
    intro site
    simp only [childSaving, discountedChildPrice, hcap, hkids, hchild]
  have hT : ∀ site, totalSaving cfg₁ o site = totalSaving cfg₂ o site := by
    intro site
    simp only [totalSaving, hA, hC]
  have hL : ∀ site, breakdownLine cfg₁ o site = breakdownLine cfg₂ o site := by
    intro site
    simp only [breakdownLine, hcap, hkids, hA, hC, hT]
  have hP : ∀ site acc, processVisits cfg₁ o site acc = processVisits cfg₂ o site acc := by
    intro site acc
    simp only [processVisits, hcap, hT, hL]
  simp only [calculateGuestAdmissionSavings, hP]

/-- Witness of C27: the sample configuration and one with an empty guest-discount
matrix give the same savings, although the price that `calculateGuestAdmission` reads
from the matrix differs between them. -/
theorem calculateGuestAdmissionSavings_ignores_matrix_witness :
    sampleConfig.AdmissionPrices = otherDiscountsConfig.AdmissionPrices ∧
      sampleConfig.GuestDiscounts ≠ otherDiscountsConfig.GuestDiscounts ∧
      calculateGuestAdmission exactArithmetic sampleConfig 10 "Science" "DPKH" = some 8 ∧
      calculateGuestAdmission exactArithmetic otherDiscountsConfig 10 "Science" "DPKH" =
        some 10 ∧
      calculateGuestAdmissionSavings sampleConfig sampleOptions =
        calculateGuestAdmissionSavings otherDiscountsConfig sampleOptions :=
  ⟨rfl, by simp [sampleConfig, otherDiscountsConfig],
    by
      have hentry : guestDiscountEntry sampleConfig "Science" "DPKH" = .own (1 / 4) := by
        simp [guestDiscountEntry, getProperty, sampleConfig, List.lookup]
      rw [calculateGuestAdmission_cases, hentry]
      norm_num [exactArithmetic, mathRound, Int.floor_eq_iff],
    by
      have hentry : guestDiscountEntry otherDiscountsConfig "Science" "DPKH" = .missing := by
        decide
      rw [calculateGuestAdmission_cases, hentry],
    calculateGuestAdmissionSavings_ignores_matrix sampleConfig otherDiscountsConfig
      sampleOptions rfl rfl⟩

/-! ## Further properties of the membership discount -/

/-- For a natural price and a rate in `[0, 1)` the discounted price is a natural number
not above the price. -/
theorem applyDiscount_natural (cfg : PricingConfig) (price : ℕ) (memberCount : ℚ)
    (location : String) (membershipType : Option String)
    (hr0 : 0 ≤ cfg.Discounts.membershipDiscount.currentRate)
    (hr1 : cfg.Discounts.membershipDiscount.currentRate < 1) :
    ∃ r : ℕ, applyDiscount cfg (price : ℚ) memberCount location membershipType = (r : ℚ) ∧
      r ≤ price := by
  unfold applyDiscount
  split
  · have hp : (0 : ℚ) ≤ (price : ℚ) := Nat.cast_nonneg _
    have hx : 0 ≤ (price : ℚ) * (1 - cfg.Discounts.membershipDiscount.currentRate) :=
      mul_nonneg hp (by linarith)
    have hle : (price : ℚ) * (1 - cfg.Discounts.membershipDiscount.currentRate) ≤ (price : ℚ) := by
      have := mul_nonneg hp hr0
      linarith
    have hfloor0 : (0 : ℤ) ≤
        ⌊(price : ℚ) * (1 - cfg.Discounts.membershipDiscount.currentRate) + 1 / 2⌋ :=
      Int.floor_nonneg.mpr (by linarith)
    have hfloor1 : ⌊(price : ℚ) * (1 - cfg.Discounts.membershipDiscount.currentRate) + 1 / 2⌋ <
        (price : ℤ) + 1 := by
      rw [Int.floor_lt]
      push_cast
      linarith
    refine ⟨⌊(price : ℚ) * (1 - cfg.Discounts.membershipDiscount.currentRate) + 1 / 2⌋.toNat,
      ?_, ?_⟩
    · show ((⌊(price : ℚ) * (1 - cfg.Discounts.membershipDiscount.currentRate) + 1 / 2⌋ : ℤ) : ℚ)
        = _
      have hcast : ((⌊(price : ℚ) * (1 - cfg.Discounts.membershipDiscount.currentRate) +
          1 / 2⌋.toNat : ℕ) : ℤ) =
          ⌊(price : ℚ) * (1 - cfg.Discounts.membershipDiscount.currentRate) + 1 / 2⌋ :=
        Int.toNat_of_nonneg hfloor0
      exact_mod_cast hcast.symm
    · omega
  · exact ⟨price, rfl, le_refl _⟩

/-- C28: for a non-negative integer price, a rate in `[0, 1)` and any member count,
location and membership type, `applyDiscount` returns an integer between 0 and the
price; applying it again to its own result does not increase the price; and on the
sample configuration the second application turns 75 into 56, so it is not the
identity. -/
theorem applyDiscount_reapplied (cfg : PricingConfig) (price : ℕ) (memberCount : ℚ)
    (location : String) (membershipType : Option String)
    (hr0 : 0 ≤ cfg.Discounts.membershipDiscount.currentRate)
    (hr1 : cfg.Discounts.membershipDiscount.currentRate < 1) :
    (∃ r : ℤ,
        applyDiscount cfg (price : ℚ) memberCount location membershipType = (r : ℚ) ∧
          0 ≤ r ∧ r ≤ (price : ℤ)) ∧
      applyDiscount cfg (applyDiscount cfg (price : ℚ) memberCount location membershipType)
          memberCount location membershipType ≤
        applyDiscount cfg (price : ℚ) memberCount location membershipType ∧
      (applyDiscount sampleConfig 100 5 "Science" none = 75 ∧
        applyDiscount sampleConfig (applyDiscount sampleConfig 100 5 "Science" none) 5
            "Science" none = 56) := by
  obtain ⟨r, hr, hle⟩ :=
    applyDiscount_natural cfg price memberCount location membershipType hr0 hr1
  obtain ⟨r2, hr2, hle2⟩ :=
    applyDiscount_natural cfg r memberCount location membershipType hr0 hr1
  have hne : ¬ ("Science" = "DPKR") := by decide
  have h75 : applyDiscount sampleConfig 100 5 "Science" none = 75 := by
    norm_num [applyDiscount, isEligibleForDiscount, sampleConfig, mathRound, Int.floor_eq_iff,
      hne]
  refine ⟨⟨(r : ℤ), by rw [hr]; norm_cast, Int.natCast_nonneg r, by exact_mod_cast hle⟩, ?_,
    h75, ?_⟩
  · rw [hr, hr2]
    exact_mod_cast hle2
  · rw [h75]
    norm_num [applyDiscount, isEligibleForDiscount, sampleConfig, mathRound, Int.floor_eq_iff,
      hne]

/-- Witness of C28 on the sample configuration: the price 100 for five members at
Science. -/
theorem applyDiscount_reapplied_witness :
    (0 : ℚ) ≤ sampleConfig.Discounts.membershipDiscount.currentRate ∧
      sampleConfig.Discounts.membershipDiscount.currentRate < 1 ∧
      applyDiscount sampleConfig
          (applyDiscount sampleConfig ((100 : ℕ) : ℚ) 5 "Science" none) 5 "Science" none ≤
        applyDiscount sampleConfig ((100 : ℕ) : ℚ) 5 "Science" none :=
  ⟨by norm_num [sampleConfig], by norm_num [sampleConfig],
    (applyDiscount_reapplied sampleConfig 100 5 "Science" none (by norm_num [sampleConfig])
      (by norm_num [sampleConfig])).2.1⟩

/-! ## Further properties of the Welcome Program pricing -/

/-- C29: the membership anchored at DPKR and the single visit at Science with parking
return no record, hence no breakdown: for every configuration the call throws the
`ReferenceError` of the name `AdmissionCostCalculator`. Whenever a call returns a
record, the costs of its breakdown items are the base price, the parking cost and the
cross-location cost in membership mode, the admission cost and the parking cost in
single-visit mode, and they add up to the total price. -/
theorem welcome_breakdown_throws (fp : Arithmetic) (cfg : PricingConfig) :
    calculateWelcomeProgramPricing fp cfg moduleScope rockinghamOptions =
        .error (.ReferenceError "AdmissionCostCalculator") ∧
      calculateWelcomeProgramPricing fp cfg moduleScope sampleSingleVisit =
        .error (.ReferenceError "AdmissionCostCalculator") ∧
      (∀ (scope : Option AdmissionCostCalculator) (o : WelcomeOptions)
          (result : WelcomePricing),
        calculateWelcomeProgramPricing fp cfg scope o = .ok result →
          match result with
          | .membership r =>
            r.costBreakdown.items.map CostItem.cost =
                [r.basePrice, r.parkingCost, r.crossLocationCost] ∧
              (r.costBreakdown.items.map CostItem.cost).sum = r.totalPrice
          | .singleVisit r =>
            r.costBreakdown.items.map CostItem.cost = [r.admissionCost, r.parkingCost] ∧
              (r.costBreakdown.items.map CostItem.cost).sum = r.totalPrice) := by
  refine ⟨welcome_membership_throws fp cfg rockinghamOptions rfl,
    welcome_parking_throws fp cfg sampleSingleVisit rfl, fun scope o result hreturn => ?_⟩
  rcases welcome_returns_cases fp cfg scope o result hreturn with
    ⟨_, calculator, parkingCost, _, hresult⟩ | ⟨_, hresult⟩
  · subst hresult
    refine ⟨rfl, ?_⟩
    simp only [welcomeMembership, List.map_cons, List.map_nil, List.sum_cons, List.sum_nil]
    ring
  · subst hresult
    refine ⟨rfl, ?_⟩
    simp only [welcomeAdmission, List.map_cons, List.map_nil, List.sum_cons, List.sum_nil]
    ring

end DiscountService

namespace App

open DiscountService

/-! ## Properties of formatCurrency -/

/-- C21: the amount handed to the formatter is a finite number between 0 and 100000;
it is `min(max(0, amount), 100000)` for a finite amount, 0 for `NaN`, and the amount
itself when that already lies between 0 and 100000. -/
theorem validAmount_clamped (amount : JsNumber) :
    ∃ v : ℚ,
      validAmount amount = .finite v ∧
        (∀ format : JsNumber → String, formatCurrency format amount = format (.finite v)) ∧
        0 ≤ v ∧ v ≤ 100000 ∧
        (amount = .nan → v = 0) ∧
        (∀ x : ℚ, amount = .finite x → v = min (max 0 x) 100000) ∧
        (∀ x : ℚ, amount = .finite x → 0 ≤ x → x ≤ 100000 → v = x) := by
  have key : ∃ v : ℚ, validAmount amount = .finite v ∧ 0 ≤ v ∧ v ≤ 100000 ∧
      (amount = .nan → v = 0) ∧ (∀ x : ℚ, amount = .finite x → v = min (max 0 x) 100000) := by
    cases amount with
    | nan =>
      refine ⟨0, ?_, le_refl _, by norm_num, fun _ => rfl, fun x hx => by cases hx⟩
      simp [validAmount, mathMin, mathMax, isNaN, JsNumber.lt]
    | infinity =>
      refine ⟨100000, ?_, by norm_num, le_refl _, (fun h => by cases h), (fun x hx => by cases hx)⟩
      simp [validAmount, mathMin, mathMax, isNaN, JsNumber.lt]
    | negInfinity =>
      refine ⟨0, ?_, le_refl _, by norm_num, (fun h => by cases h), (fun x hx => by cases hx)⟩
      simp [validAmount, mathMin, mathMax, isNaN, JsNumber.lt]
    | finite x =>
      refine ⟨min (max 0 x) 100000, ?_, le_min (le_max_left _ _) (by norm_num),
        min_le_right _ _, (fun h => by cases h), (fun y hy => by cases hy; rfl)⟩
      by_cases h0 : 0 < x
      · by_cases h1 : 100000 < x
        · have h2 : min (max 0 x) 100000 = 100000 := by
            rw [max_eq_right h0.le, min_eq_right h1.le]
          rw [h2]
          simp [validAmount, mathMin, mathMax, isNaN, JsNumber.lt, h0, h1]
        · have h2 : min (max 0 x) 100000 = x := by
            rw [max_eq_right h0.le, min_eq_left (not_lt.mp h1)]
          rw [h2]
          simp [validAmount, mathMin, mathMax, isNaN, JsNumber.lt, h0, h1]
      · have h2 : min (max 0 x) 100000 = 0 := by
          rw [max_eq_left (not_lt.mp h0), min_eq_left (by norm_num)]
        rw [h2]
        simp [validAmount, mathMin, mathMax, isNaN, JsNumber.lt, h0]
  obtain ⟨v, hv, h0, h1, hnan, hfin⟩ := key
  refine ⟨v, hv, fun format => by rw [formatCurrency, hv], h0, h1, hnan, hfin, ?_⟩
  intro x hx hx0 hx1
  rw [hfin x hx, max_eq_right hx0, min_eq_left hx1]

/-! ## Properties of the reducer and of the handlers -/

/-- C22: when `MAX_ADULTS` is at least 1 and `MAX_CHILDREN` at least 0, the adult count
stored after `handleAdultCountChange` lies between 1 and `MAX_ADULTS`, the children
count stored after `handleChildrenCountChange` between 0 and `MAX_CHILDREN`, and a
requested count inside the range is stored as it is. -/
theorem handlers_clamp_counts {Rec : Type} (cfg : PricingConfig)
    (initialStateNow state : AppState Rec) (count : ℚ)
    (hadults : 1 ≤ cfg.Constraints.MAX_ADULTS)
    (hchildren : 0 ≤ cfg.Constraints.MAX_CHILDREN) :
    (1 ≤ (appReducer initialStateNow state (handleAdultCountChange cfg count)).adultCount ∧
        (appReducer initialStateNow state (handleAdultCountChange cfg count)).adultCount ≤
          cfg.Constraints.MAX_ADULTS) ∧
      (1 ≤ count → count ≤ cfg.Constraints.MAX_ADULTS →
        (appReducer initialStateNow state (handleAdultCountChange cfg count)).adultCount =
          count) ∧
      (0 ≤
          (appReducer initialStateNow state (handleChildrenCountChange cfg count)).childrenCount ∧
        (appReducer initialStateNow state (handleChildrenCountChange cfg count)).childrenCount ≤
          cfg.Constraints.MAX_CHILDREN) ∧
      (0 ≤ count → count ≤ cfg.Constraints.MAX_CHILDREN →
        (appReducer initialStateNow state (handleChildrenCountChange cfg count)).childrenCount =
          count) := by
  refine ⟨⟨le_min (le_max_left _ _) hadults, min_le_right _ _⟩, ?_,
    ⟨le_min (le_max_left _ _) hchildren, min_le_right _ _⟩, ?_⟩
  · intro h1 h2
    show min (max 1 count) cfg.Constraints.MAX_ADULTS = count
    rw [max_eq_right h1, min_eq_left h2]
  · intro h1 h2
    show min (max 0 count) cfg.Constraints.MAX_CHILDREN = count
    rw [max_eq_right h1, min_eq_left h2]

/-- Witness of C22 on the sample configuration: a request for seven adults and seven
children from the initial state. -/
theorem handlers_clamp_counts_witness :
    (1 : ℚ) ≤ sampleConfig.Constraints.MAX_ADULTS ∧
      (0 : ℚ) ≤ sampleConfig.Constraints.MAX_CHILDREN ∧
      (1 ≤ (appReducer initialState (initialState : AppState Unit)
            (handleAdultCountChange sampleConfig 7)).adultCount ∧
        (appReducer initialState (initialState : AppState Unit)
            (handleAdultCountChange sampleConfig 7)).adultCount ≤
          sampleConfig.Constraints.MAX_ADULTS) :=
  ⟨by norm_num [sampleConfig], by norm_num [sampleConfig],
    (handlers_clamp_counts sampleConfig initialState (initialState : AppState Unit) 7
      (by norm_num [sampleConfig]) (by norm_num [sampleConfig])).1⟩

/-- C25: `SET_STEP` with payload `p` sets `currentStep` to `p`, raises
`needsRecommendationUpdate` when `p` is 3 and the current step is not 3, keeps the flag
in every other case, and changes no other field; a raised flag stays raised under
every action except `UPDATE_RECOMMENDATION` and `RESET_CALCULATOR`. -/
theorem setStep_flag {Rec : Type} (initialStateNow state : AppState Rec) (p : ℚ) :
    appReducer initialStateNow state (.SET_STEP p) =
        { state with
          currentStep := p
          needsRecommendationUpdate :=
            if p = 3 ∧ state.currentStep ≠ 3 then true else state.needsRecommendationUpdate } ∧
      (p = 3 → state.currentStep ≠ 3 →
        (appReducer initialStateNow state (.SET_STEP p)).needsRecommendationUpdate = true) ∧
      (¬ (p = 3 ∧ state.currentStep ≠ 3) →
        (appReducer initialStateNow state (.SET_STEP p)).needsRecommendationUpdate =
          state.needsRecommendationUpdate) ∧
      (state.needsRecommendationUpdate = true →
        (appReducer initialStateNow state (.SET_STEP p)).needsRecommendationUpdate = true) ∧
      (∀ action : Action Rec,
        state.needsRecommendationUpdate = true →
          (appReducer initialStateNow state action).needsRecommendationUpdate = false →
            (∃ recommendation icon data, action = .UPDATE_RECOMMENDATION recommendation icon data) ∨
              action = .RESET_CALCULATOR) := by
  have hstep : appReducer initialStateNow state (.SET_STEP p) =
      { state with
        currentStep := p
        needsRecommendationUpdate :=
          if p = 3 ∧ state.currentStep ≠ 3 then true else state.needsRecommendationUpdate } := by
    by_cases h1 : p = 3 <;> by_cases h2 : state.currentStep = 3 <;>
      simp [appReducer, h1, h2]
  refine ⟨hstep, ?_, ?_, ?_, ?_⟩
  · intro h1 h2
    rw [hstep]
    simp [h1, h2]
  · intro h
    rw [hstep]
    simp [h]
  · intro h
    rw [hstep]
    by_cases hc : p = 3 ∧ state.currentStep ≠ 3 <;> simp [hc, h]
  · intro action hflag hcleared
    cases action with
    | SET_STEP q =>
      exfalso
      by_cases h1 : q = 3 <;> by_cases h2 : state.currentStep = 3 <;>
        simp [appReducer, h1, h2, hflag] at hcleared
    | UPDATE_RECOMMENDATION recommendation icon data => exact Or.inl ⟨_, _, _, rfl⟩
    | RESET_CALCULATOR => exact Or.inr rfl
    | REQUEST_RECOMMENDATION_UPDATE => simp [appReducer] at hcleared
    | _ => simp [appReducer, hflag] at hcleared

/-- Each single-field action returns the state with its one field replaced by the
payload, an action of a type without a `case` returns the state itself, and
`RESET_CALCULATOR` returns the content that the object `initialState` has at that
time. -/
theorem appReducer_single_field {Rec : Type} (initialStateNow state : AppState Rec) :
    (∀ p, appReducer initialStateNow state (.SET_ADULT_COUNT p) =
        { state with adultCount := p }) ∧
      (∀ p, appReducer initialStateNow state (.SET_CHILDREN_COUNT p) =
        { state with childrenCount := p }) ∧
      (∀ p, appReducer initialStateNow state (.SET_SCIENCE_VISITS p) =
        { state with scienceVisits := p }) ∧
      (∀ p, appReducer initialStateNow state (.SET_DPKH_VISITS p) =
        { state with dpkhVisits := p }) ∧
      (∀ p, appReducer initialStateNow state (.SET_DPKR_VISITS p) =
        { state with dpkrVisits := p }) ∧
      (∀ p, appReducer initialStateNow state (.SET_RICHMOND_RESIDENT p) =
        { state with isRichmondResident := p }) ∧
      (∀ p, appReducer initialStateNow state (.SET_NEEDS_FLEXIBILITY p) =
        { state with needsFlexibility := p }) ∧
      (∀ p, appReducer initialStateNow state (.SET_WELCOME_ELIGIBLE p) =
        { state with isWelcomeEligible := p }) ∧
      (∀ p, appReducer initialStateNow state (.SET_INCLUDE_PARKING p) =
        { state with includeParking := p }) ∧
      (∀ p, appReducer initialStateNow state (.SET_ERRORS p) = { state with errors := p }) ∧
      (∀ p, appReducer initialStateNow state (.SET_ANNOUNCEMENT p) =
        { state with announcement := p }) ∧
      (∀ type : String, appReducer initialStateNow state (.other type) = state) ∧
      appReducer initialStateNow state .RESET_CALCULATOR = initialStateNow :=
  ⟨fun _ => rfl, fun _ => rfl, fun _ => rfl, fun _ => rfl, fun _ => rfl, fun _ => rfl,
    fun _ => rfl, fun _ => rfl, fun _ => rfl, fun _ => rfl, fun _ => rfl, fun _ => rfl, rfl⟩

/-- The session after the age 99 has been typed for the first child: the state and the
object `initialState` both hold the message for the first child. -/
theorem afterInvalidAge_errors :
    afterInvalidAge.state.errors.childAges = [ageMessage, ""] ∧
      afterInvalidAge.initialState.errors.childAges = [ageMessage, ""] ∧
      afterInvalidAge.state.childAges = [.number (.finite 99), .number (.finite 7)] := by
  have h17 : (17 : ℚ) < 99 := by norm_num
  have h0 : ¬ ((99 : ℚ) < 0) := by norm_num
  simp [afterInvalidAge, handleChildAgeChange, mount, initialState, appReducer, isNaN,
    JsNumber.lt, h17, h0]

/-- C30: on a freshly mounted component, after the age 99 has been typed for the first
child, `RESET_CALCULATOR` returns a state whose `errors.childAges` is the message for an
invalid age followed by the empty string, where the initial state has two empty
strings: the handler has written the message into the array of the object
`initialState` itself. -/
theorem reset_after_invalid_age :
    (initialState : AppState Unit).errors.childAges = ["", ""] ∧
      afterInvalidAge.initialState.errors.childAges = [ageMessage, ""] ∧
      (dispatch afterInvalidAge .RESET_CALCULATOR).state.errors.childAges =
        [ageMessage, ""] ∧
      (dispatch afterInvalidAge .RESET_CALCULATOR).state ≠ (initialState : AppState Unit) := by
  have h := afterInvalidAge_errors.2.1
  have hreset : (dispatch afterInvalidAge .RESET_CALCULATOR).state.errors.childAges =
      [ageMessage, ""] := h
  refine ⟨rfl, h, hreset, fun heq => ?_⟩
  have h2 : (dispatch afterInvalidAge .RESET_CALCULATOR).state.errors.childAges =
      (initialState : AppState Unit).errors.childAges := by rw [heq]
  rw [hreset] at h2
  exact absurd h2 (by decide)

/-! ## Properties of the validation of the child ages -/

/-- A natural number is accepted as an array length. -/
theorem arrayLength_natCast (n : ℕ) : arrayLength? (n : ℚ) = some n := by
  simp [arrayLength?, Nat.floor_natCast]

/-- The validity test accepts exactly the numbers between 0 and 17. -/
theorem invalidAge_eq_false_iff (age : AgeEntry) : invalidAge age = false ↔ ValidAge age := by
  cases age with
  | blank =>
    constructor
    · intro h
      cases h
    · rintro ⟨x, hx, _⟩
      cases hx
  | number y =>
    cases y with
    | finite q =>
      constructor
      · intro h
        simp only [invalidAge, JsNumber.lt, isNaN, Bool.or_false, Bool.or_eq_false_iff,
          decide_eq_false_iff_not, not_lt] at h
        exact ⟨q, rfl, h.1, h.2⟩
      · rintro ⟨x, hx, h0, h17⟩
        cases hx
        simp only [invalidAge, JsNumber.lt, isNaN, Bool.or_false, Bool.or_eq_false_iff,
          decide_eq_false_iff_not, not_lt]
        exact ⟨h0, h17⟩
    | nan =>
      constructor
      · intro h
        simp [invalidAge, JsNumber.lt, isNaN] at h
      · rintro ⟨x, hx, _⟩
        cases hx
    | infinity =>
      constructor
      · intro h
        simp [invalidAge, JsNumber.lt, isNaN] at h
      · rintro ⟨x, hx, _⟩
        cases hx
    | negInfinity =>
      constructor
      · intro h
        simp [invalidAge, JsNumber.lt, isNaN] at h
      · rintro ⟨x, hx, _⟩
        cases hx

/-- What the `forEach` leaves behind: the error list keeps its length, the flag stays
true exactly when it was true and every visited age passed, the slots before the start
index and the slots of the ages that passed are untouched, and the slot of an age that
failed holds the message. -/
theorem forEachAge_spec (ages : List AgeEntry) :
    ∀ (k : ℕ) (errs : List String) (ok : Bool),
      (forEachAge k ages (errs, ok)).1.length = errs.length ∧
        ((forEachAge k ages (errs, ok)).2 = true ↔
          ok = true ∧ ∀ a ∈ ages, invalidAge a = false) ∧
        (∀ i, i < k → (forEachAge k ages (errs, ok)).1[i]? = errs[i]?) ∧
        (∀ j, (∀ a, ages[j]? = some a → invalidAge a = false) →
          (forEachAge k ages (errs, ok)).1[k + j]? = errs[k + j]?) ∧
        (∀ j a, ages[j]? = some a → invalidAge a = true → k + j < errs.length →
          (forEachAge k ages (errs, ok)).1[k + j]? = some ageMessage) := by
  induction ages with
  | nil =>
    intro k errs ok
    refine ⟨rfl, ?_, fun _ _ => rfl, fun _ _ => rfl, ?_⟩
    · simp [forEachAge]
    · intro j a h
      simp at h
  | cons age rest ih =>
    intro k errs ok
    by_cases hinv : invalidAge age = true
    · have hstep : forEachAge k (age :: rest) (errs, ok) =
          forEachAge (k + 1) rest (errs.set k ageMessage, false) := by
        simp [forEachAge, hinv]
      rw [hstep]
      obtain ⟨hlen, hok, hbefore, hkeep, hset⟩ := ih (k + 1) (errs.set k ageMessage) false
      refine ⟨by rw [hlen, List.length_set], ?_, ?_, ?_, ?_⟩
      · constructor
        · intro h
          exact absurd (hok.mp h).1 (by decide)
        · rintro ⟨_, hall⟩
          have := hall age (List.mem_cons_self _ _)
          rw [hinv] at this
          cases this
      · intro i hi
        rw [hbefore i (by omega), List.getElem?_set_ne (by omega)]
      · intro j hj
        cases j with
        | zero =>
          have := hj age (by simp)
          rw [hinv] at this
          cases this
        | succ j =>
          have h1 : k + (j + 1) = k + 1 + j := by omega
          rw [h1, hkeep j (fun a ha => hj a (by simpa using ha)),
            List.getElem?_set_ne (by omega)]
      · intro j a ha hinva hlt
        cases j with
        | zero =>
          have hlt2 : k < errs.length := hlt
          show (forEachAge (k + 1) rest (errs.set k ageMessage, false)).1[k]? = some ageMessage
          rw [hbefore k (by omega), List.getElem?_set_self hlt2]
        | succ j =>
          have h1 : k + (j + 1) = k + 1 + j := by omega
          rw [h1]
          exact hset j a (by simpa using ha) hinva (by rw [List.length_set]; omega)
    · have hval : invalidAge age = false := by
        cases h : invalidAge age
        · rfl
        · exact absurd h hinv
      have hstep : forEachAge k (age :: rest) (errs, ok) =
          forEachAge (k + 1) rest (errs, ok) := by
        simp [forEachAge, hval]
      rw [hstep]
      obtain ⟨hlen, hok, hbefore, hkeep, hset⟩ := ih (k + 1) errs ok
      refine ⟨hlen, ?_, ?_, ?_, ?_⟩
      · rw [hok]
        constructor
        · rintro ⟨h1, h2⟩
          refine ⟨h1, fun a ha => ?_⟩
          rcases List.mem_cons.mp ha with rfl | hmem
          · exact hval
          · exact h2 a hmem
        · rintro ⟨h1, h2⟩
          exact ⟨h1, fun a ha => h2 a (List.mem_cons_of_mem _ ha)⟩
      · intro i hi
        exact hbefore i (by omega)
      · intro j hj
        cases j with
        | zero => exact hbefore k (by omega)
        | succ j =>
          have h1 : k + (j + 1) = k + 1 + j := by omega
          rw [h1]
          exact hkeep j (fun a ha => hj a (by simpa using ha))
      · intro j a ha hinva hlt
        cases j with
        | zero =>
          have : age = a := by simpa using ha
          subst this
          rw [hval] at hinva
          cases hinva
        | succ j =>
          have h1 : k + (j + 1) = k + 1 + j := by omega
          rw [h1]
          exact hset j a (by simpa using ha) hinva (by omega)

/-- With at least `n` entries in the list, a property holds of every entry among the
first `n` exactly when every index below `n` has an entry with the property. -/
theorem forall_mem_take_iff {α : Type} (l : List α) (n : ℕ) (P : α → Prop)
    (hlen : n ≤ l.length) :
    (∀ a ∈ l.take n, P a) ↔ ∀ i, i < n → ∃ a, l[i]? = some a ∧ P a := by
  constructor
  · intro h i hi
    have hil : i < l.length := lt_of_lt_of_le hi hlen
    refine ⟨l[i], List.getElem?_eq_getElem hil, h _ ?_⟩
    rw [List.mem_iff_getElem?]
    exact ⟨i, by rw [List.getElem?_take_of_lt hi, List.getElem?_eq_getElem hil]⟩
  · intro h a ha
    rw [List.mem_iff_getElem?] at ha
    obtain ⟨i, hi⟩ := ha
    have hin : i < n := by
      by_contra hge
      rw [List.getElem?_take, if_neg hge] at hi
      cases hi
    rw [List.getElem?_take_of_lt hin] at hi
    obtain ⟨b, hb, hP⟩ := h i hin
    rw [hi] at hb
    cases hb
    exact hP

/-- C23, counterexample: for three children and the two ages 5 and 7,
`validateChildAges` returns true and dispatches three empty messages, although
`childAges` has no third entry, which is therefore no number between 0 and 17. -/
theorem validateChildAges_missing_age :
    ([AgeEntry.number (.finite 5), AgeEntry.number (.finite 7)] : List AgeEntry)[2]? = none ∧
      (validateChildAges ((3 : ℕ) : ℚ)
          [AgeEntry.number (.finite 5), AgeEntry.number (.finite 7)] :
        Option (Action Unit × Bool)) =
        some (.SET_ERRORS { childAges := ["", "", ""] }, true) := by
  refine ⟨rfl, ?_⟩
  have h5 : ¬ ((5 : ℚ) < 0) := by norm_num
  have h7 : ¬ ((7 : ℚ) < 0) := by norm_num
  have h17 : ¬ ((17 : ℚ) < 5) := by norm_num
  have h177 : ¬ ((17 : ℚ) < 7) := by norm_num
  have hlen : arrayLength? ((3 : ℕ) : ℚ) = some 3 := arrayLength_natCast 3
  simp only [validateChildAges, hlen]
  simp [forEachAge, invalidAge, JsNumber.lt, isNaN, h5, h7, h17, h177, List.replicate]

/-- C23, amended: for a children count `n`, `validateChildAges` dispatches `SET_ERRORS`
with a list of exactly `n` entries and returns true exactly when each entry that
`childAges` has among its first `n` is a number between 0 and 17; when `childAges` has
at least `n` entries, that is exactly when each of the first `n` entries is such a
number; entry `i` of the list is non-empty exactly when `childAges` has an entry `i` and
that entry is not such a number. -/
theorem validateChildAges_spec {Rec : Type} (n : ℕ) (childAges : List AgeEntry) :
    ∃ (errs : List String) (ok : Bool),
      (validateChildAges (n : ℚ) childAges : Option (Action Rec × Bool)) =
          some (.SET_ERRORS { childAges := errs }, ok) ∧
        (ok = true ↔ ∀ age ∈ childAges.take n, ValidAge age) ∧
        (n ≤ childAges.length →
          (ok = true ↔ ∀ i, i < n → ∃ age, childAges[i]? = some age ∧ ValidAge age)) ∧
        errs.length = n ∧
        (∀ i, i < n →
          (errs[i]? ≠ some "" ↔ ∃ age, childAges[i]? = some age ∧ ¬ ValidAge age)) := by
  obtain ⟨hlen, hok, _, hkeep, hset⟩ :=
    forEachAge_spec (childAges.take n) 0 (List.replicate n "") true
  have hvalid : (forEachAge 0 (childAges.take n) (List.replicate n "", true)).2 = true ↔
      ∀ age ∈ childAges.take n, ValidAge age := by
    rw [hok]
    constructor
    · rintro ⟨_, h⟩ age hage
      exact (invalidAge_eq_false_iff age).mp (h age hage)
    · intro h
      exact ⟨rfl, fun age hage => (invalidAge_eq_false_iff age).mpr (h age hage)⟩
  refine ⟨(forEachAge 0 (childAges.take n) (List.replicate n "", true)).1,
    (forEachAge 0 (childAges.take n) (List.replicate n "", true)).2,
    by simp [validateChildAges, arrayLength_natCast], hvalid, ?_, ?_, ?_⟩
  · intro hn
    rw [hvalid]
    exact forall_mem_take_iff childAges n ValidAge hn
  · rw [hlen, List.length_replicate]
  · intro i hi
    have htake : (childAges.take n)[i]? = childAges[i]? := List.getElem?_take_of_lt hi
    have hblank : (List.replicate n "")[0 + i]? = some "" := by
      rw [Nat.zero_add, List.getElem?_replicate, if_pos hi]
    have hmsg : some ageMessage ≠ some "" := by decide
    constructor
    · intro hne
      by_contra hnone
      apply hne
      have hvalid : ∀ a, (childAges.take n)[i]? = some a → invalidAge a = false := by
        intro a ha
        rw [htake] at ha
        by_contra hinv
        exact hnone ⟨a, ha, fun hv => hinv ((invalidAge_eq_false_iff a).mpr hv)⟩
      have := hkeep i hvalid
      rw [Nat.zero_add] at this hblank
      rw [this, hblank]
    · rintro ⟨age, hage, hinvalid⟩
      have hinv : invalidAge age = true := by
        cases h : invalidAge age
        · exact absurd ((invalidAge_eq_false_iff age).mp h) hinvalid
        · rfl
      have := hset i age (by rw [htake]; exact hage) hinv
        (by rw [List.length_replicate]; omega)
      rw [Nat.zero_add] at this
      rw [this]
      exact hmsg

/-! ## Properties of the effect that updates the child ages -/

/-- `slice(0, n)` for a natural `n` keeps the first `n` entries. -/
theorem sliceTo_natCast {α : Type} (array : List α) (n : ℕ) :
    sliceTo array (n : ℚ) = array.take n := by
  have h0 : (0 : ℚ) ≤ (n : ℚ) := Nat.cast_nonneg n
  have hfloor : ⌊(n : ℚ)⌋ = (n : ℤ) := Int.floor_natCast n
  simp only [sliceTo, if_pos h0, hfloor]
  have hnot : ¬ ((n : ℤ) < 0) := by omega
  rw [if_neg hnot]
  rcases le_total n array.length with h | h
  · have hmin : min (n : ℤ) (array.length : ℤ) = (n : ℤ) := min_eq_left (by exact_mod_cast h)
    rw [hmin, Int.toNat_natCast]
  · have hmin : min (n : ℤ) (array.length : ℤ) = (array.length : ℤ) :=
      min_eq_right (by exact_mod_cast h)
    rw [hmin, Int.toNat_natCast, List.take_of_length_le h, List.take_of_length_le (le_refl _)]

/-- When `initialRenderRef.current` is false and the children count is the natural
number `n`, the effect dispatches `UPDATE_CHILD_AGES_ARRAY` whenever the length of
`childAges` differs from `n`; the dispatched array has length `n`, agrees with the old
list on its first `min(length, n)` entries, is the old list followed by fives when `n`
exceeds the length and its first `n` entries when `n` is below the length, and becomes
the `childAges` of the state; when the lengths match nothing is dispatched. -/
theorem updateChildAgesEffect_restores {Rec : Type} (initialStateNow state : AppState Rec)
    (n : ℕ)
    (childAges : List AgeEntry) :
    (childAges.length ≠ n →
        ∃ payload : List AgeEntry,
          (updateChildAgesEffect false (n : ℚ) childAges : Option (Action Rec)) =
              some (.UPDATE_CHILD_AGES_ARRAY payload) ∧
            payload.length = n ∧
            payload.take (min childAges.length n) = childAges.take (min childAges.length n) ∧
            (childAges.length < n →
              payload = childAges ++ List.replicate (n - childAges.length) (AgeEntry.number (.finite 5))) ∧
            (n < childAges.length → payload = childAges.take n) ∧
            (appReducer initialStateNow state (.UPDATE_CHILD_AGES_ARRAY payload)).childAges = payload ∧
            (appReducer initialStateNow state (.UPDATE_CHILD_AGES_ARRAY payload)).childAges.length = n) ∧
      (childAges.length = n →
        (updateChildAgesEffect false (n : ℚ) childAges : Option (Action Rec)) = none) := by
  constructor
  · intro hne
    rcases Nat.lt_or_gt_of_ne hne with hlt | hgt
    · have hq : (n : ℚ) > (childAges.length : ℚ) := by exact_mod_cast hlt
      have hceil : ⌈(n : ℚ) - (childAges.length : ℚ)⌉₊ = n - childAges.length := by
        rw [← Nat.cast_sub hlt.le, Nat.ceil_natCast]
      refine ⟨childAges ++ List.replicate (n - childAges.length) (AgeEntry.number (.finite 5)),
        ?_, ?_, ?_, fun _ => rfl, fun h => absurd h (by omega), rfl, ?_⟩
      · simp only [updateChildAgesEffect, Bool.false_eq_true, if_false, if_pos hq, hceil]
      · rw [List.length_append, List.length_replicate]
        omega
      · rw [min_eq_left hlt.le, List.take_left, List.take_of_length_le (le_refl _)]
      · show (childAges ++ List.replicate (n - childAges.length) (AgeEntry.number (.finite 5))).length = n
        rw [List.length_append, List.length_replicate]
        omega
    · have hq : (n : ℚ) < (childAges.length : ℚ) := by exact_mod_cast hgt
      refine ⟨childAges.take n, ?_, ?_, ?_, fun h => absurd h (by omega), fun _ => rfl, rfl, ?_⟩
      · simp only [updateChildAgesEffect, Bool.false_eq_true, if_false, if_neg (not_lt.mpr hq.le),
          if_pos hq, sliceTo_natCast]
      · rw [List.length_take]
        omega
      · rw [min_eq_right hgt.le, List.take_take, min_self]
      · show (childAges.take n).length = n
        rw [List.length_take]
        omega
  · intro heq
    have h1 : ¬ ((n : ℚ) > (childAges.length : ℚ)) := by
      rw [heq]
      exact lt_irrefl _
    have h2 : ¬ ((n : ℚ) < (childAges.length : ℚ)) := by
      rw [heq]
      exact lt_irrefl _
    simp only [updateChildAgesEffect, Bool.false_eq_true, if_false, if_neg h1, if_neg h2]


/-- The session after "Start Over" and a request for three children: the reference is
set, and the state holds three children and the two ages of the initial state. -/
theorem threeChildrenAfterStartOver_state :
    threeChildrenAfterStartOver.initialRenderRef = true ∧
      threeChildrenAfterStartOver.state.childrenCount = 3 ∧
      threeChildrenAfterStartOver.state.childAges =
        [.number (.finite 5), .number (.finite 7)] := by
  refine ⟨rfl, ?_, rfl⟩
  show min (max (0 : ℚ) 3) sampleConfig.Constraints.MAX_CHILDREN = 3
  norm_num [sampleConfig]

/-- C24: after "Start Over" and a request for three children,
`initialRenderRef.current` is still true, the state holds three children and the two
ages 5 and 7, and the effect dispatches nothing, so three children keep two ages; with
the reference cleared the same effect dispatches the ages 5, 7 and 5. -/
theorem updateChildAgesEffect_after_reset :
    (mount : Session Unit).initialRenderRef = false ∧
      threeChildrenAfterStartOver.initialRenderRef = true ∧
      threeChildrenAfterStartOver.state.childrenCount = ((3 : ℕ) : ℚ) ∧
      threeChildrenAfterStartOver.state.childAges =
        [.number (.finite 5), .number (.finite 7)] ∧
      (updateChildAgesEffect threeChildrenAfterStartOver.initialRenderRef
          threeChildrenAfterStartOver.state.childrenCount
          threeChildrenAfterStartOver.state.childAges : Option (Action Unit)) = none ∧
      (updateChildAgesEffect false threeChildrenAfterStartOver.state.childrenCount
          threeChildrenAfterStartOver.state.childAges : Option (Action Unit)) =
        some (.UPDATE_CHILD_AGES_ARRAY
          [.number (.finite 5), .number (.finite 7), .number (.finite 5)]) := by
  obtain ⟨href, hcount, hages⟩ := threeChildrenAfterStartOver_state
  have hcount3 : threeChildrenAfterStartOver.state.childrenCount = ((3 : ℕ) : ℚ) := by
    rw [hcount]
    norm_num
  refine ⟨rfl, href, hcount3, hages, ?_, ?_⟩
  · rw [href]
    rfl
  · rw [hcount3, hages]
    obtain ⟨payload, hdispatch, _, _, hpad, _⟩ :=
      (updateChildAgesEffect_restores (initialState : AppState Unit) initialState 3
        [.number (.finite 5), .number (.finite 7)]).1 (by decide)
    rw [hdispatch, hpad (by decide)]
    rfl

end App
